import Mathlib

/-!
# A shallow embedding of the STAB Protocol CDP engine and peg-controller proxy

This development models the Scrypto sources of the STAB Protocol
(`stabilis_component.rs`, `shared_structs.rs`, `proxy.rs`) in Lean 4 and
verifies a list of claims about them.

Modelling conventions:
* Radix `Decimal` (a fixed-point rational with 18 fractional digits) is
  modelled as the exact rationals `ℚ`.  All concrete inputs used in the
  theorems below are exactly representable, and the claims under
  verification are algebraic identities, so no truncation behaviour is
  relevant to them.  Note that `ℚ` division by zero yields `0` where
  `Decimal` division by zero aborts the transaction; no theorem below
  depends on a division by zero.
* `ResourceAddress` and `NonFungibleLocalId` (integer ids) are modelled as
  `ℕ`.  Key-value stores and non-fungible resource managers are modelled
  as association lists; the ordered `AvlTree`s are modelled as
  key-sorted association lists with order-preserving insertion.
* `Instant` is seconds since the Unix epoch, an `ℤ`.  `add_minutes d`
  adds `60 * d` seconds; `Clock::current_time_is_at_or_after` at second
  precision compares with `≤`.
* External component calls (validator / one-resource-pool redemption
  rates, the clock, the oracle and the AMM pool price) are passed to the
  operations as explicit arguments.
* A Scrypto `panic` / failed `assert!` aborts the whole transaction and
  leaves the on-ledger state unchanged; operations therefore return
  `Except String`, and the transaction runner `applyOp` keeps the old
  state on `.error`.
-/

namespace StabProtocol

/-- Resource addresses, modelled as naturals. -/
abbrev Addr := ℕ

/-- Integer non-fungible local ids. -/
abbrev NFId := ℕ

/-- A bucket: a resource address together with an amount. -/
structure Bucket where
  resource : Addr
  amount : ℚ
deriving DecidableEq, Repr

/-! ## Association-list stores (KeyValueStore / NF resource managers) -/

/-- Lookup in an association list (`KeyValueStore::get` /
`get_non_fungible_data`). -/
def alookup {κ α : Type} [DecidableEq κ] : List (κ × α) → κ → Option α
  | [], _ => none
  | (k', v) :: rest, k => if k = k' then some v else alookup rest k

/-- Insert-or-replace in an association list (`KeyValueStore::insert`,
non-fungible mint / data update).  The entry is placed at the front and
any stale entry for the same key is dropped. -/
def aset {κ α : Type} [DecidableEq κ] (l : List (κ × α)) (k : κ) (v : α) :
    List (κ × α) :=
  (k, v) :: l.filter (fun p => p.1 ≠ k)

/-- Remove a key from an association list (non-fungible burn). -/
def aerase {κ α : Type} [DecidableEq κ] (l : List (κ × α)) (k : κ) :
    List (κ × α) :=
  l.filter (fun p => p.1 ≠ k)

/-! ## Ordered trees (`scrypto_avltree::AvlTree`) as sorted assoc lists -/

/-- `AvlTree::insert`: insert-or-replace keeping keys sorted ascending. -/
def tset {α : Type} : List (ℚ × α) → ℚ → α → List (ℚ × α)
  | [], k, v => [(k, v)]
  | (k', v') :: rest, k, v =>
    if k < k' then (k, v) :: (k', v') :: rest
    else if k = k' then (k, v) :: rest
    else (k', v') :: tset rest k v

/-- `AvlTree::get` / `get_mut`. -/
def tget {α : Type} (l : List (ℚ × α)) (k : ℚ) : Option α := alookup l k

/-- `AvlTree::remove`. -/
def tremove {α : Type} (l : List (ℚ × α)) (k : ℚ) : List (ℚ × α) :=
  l.filter (fun p => p.1 ≠ k)

/-- `tree.range(dec!(0)..).next()`: the least entry with key `≥ 0`. -/
def tfirst {α : Type} (l : List (ℚ × α)) : Option (ℚ × α) :=
  (l.filter (fun p => 0 ≤ p.1)).head?

/-- `tree.range_back(dec!(0)..bound)`: entries with `0 ≤ key < bound`,
iterated descending. -/
def trangeBack {α : Type} (l : List (ℚ × α)) (bound : ℚ) : List (ℚ × α) :=
  (l.filter (fun p => 0 ≤ p.1 ∧ p.1 < bound)).reverse

/-! ## Data model (`shared_structs.rs`) -/

/-- Status of a CDP. -/
inductive CdpStatus where
  | Healthy
  | Marked
  | Liquidated
  | ForceLiquidated
  | Closed
deriving DecidableEq, Repr

/-- The kind of update that a marking action has executed. -/
inductive CdpUpdate where
  | Marked
  | Saved
deriving DecidableEq, Repr

/-- Data of a loan receipt / CDP receipt. -/
structure Cdp where
  collateral : Addr
  parentAddress : Addr
  isPoolUnitCollateral : Bool
  collateralAmount : ℚ
  mintedStab : ℚ
  collateralStabRatio : ℚ
  status : CdpStatus
  markerId : ℕ
deriving DecidableEq, Repr

/-- Data of a CDP marker receipt. -/
structure CdpMarker where
  markType : CdpUpdate
  timeMarked : ℤ
  markedId : NFId
  markerPlacing : ℚ
  used : Bool
deriving DecidableEq, Repr

/-- Data of a liquidation receipt. -/
structure LiquidationReceipt where
  collateral : Addr
  stabPaid : ℚ
  percentageReceived : ℚ
  percentageOwed : ℚ
  cdpLiquidated : NFId
  dateLiquidated : ℤ
deriving DecidableEq, Repr

/-- All info about a collateral used by the protocol.  The two `Vault`s
are modelled by their balances. -/
structure CollateralInfo where
  mcr : ℚ
  usdPrice : ℚ
  liquidationCollateralRatio : ℚ
  vault : ℚ
  resourceAddress : Addr
  treasury : ℚ
  accepted : Bool
  initialized : Bool
  maxStabShare : ℚ
  mintedStab : ℚ
  collateralAmount : ℚ
  highestCr : ℚ
deriving DecidableEq, Repr

/-- Info about a pool-unit collateral.  The validator / one-resource-pool
references are external components; their redemption rate is supplied to
the operations as an environment argument. -/
structure PoolUnitInfo where
  vault : ℚ
  treasury : ℚ
  lsu : Bool
  parentAddress : Addr
  address : Addr
  accepted : Bool
  mintedStab : ℚ
  maxPoolShare : ℚ
deriving DecidableEq, Repr

/-- The protocol parameters. -/
structure ProtocolParameters where
  minimumMint : ℚ
  maxVectorLength : ℕ
  liquidationDelay : ℤ
  unmarkedDelay : ℤ
  liquidationLiquidationFine : ℚ
  stabilisLiquidationFine : ℚ
  stopLiquidations : Bool
  stopOpenings : Bool
  stopClosings : Bool
  stopForceMint : Bool
  stopForceLiquidate : Bool
  forceMintCrMultiplier : ℚ
deriving DecidableEq, Repr

/-- One bucket of the per-parent collateral-ratio index. -/
abbrev CrTree := List (ℚ × List NFId)

/-- The state of the `Stabilis` component.  Resource managers are
modelled as the id-indexed stores of their non-fungible data. -/
structure StabState where
  collaterals : List (Addr × CollateralInfo)
  poolUnits : List (Addr × PoolUnitInfo)
  collateralRatios : List (Addr × CrTree)
  cdpCounter : ℕ
  cdps : List (NFId × Cdp)
  stabAddress : Addr
  internalStabPrice : ℚ
  circulatingStab : ℚ
  markers : List (NFId × CdpMarker)
  cdpMarkerCounter : ℕ
  markedCdps : List (ℚ × NFId)
  markedCdpsActive : ℕ
  markerPlacingCounter : ℚ
  liquidationReceipts : List (NFId × LiquidationReceipt)
  liquidationCounter : ℕ
  parameters : ProtocolParameters
deriving DecidableEq, Repr

/-- The state produced by `Stabilis::instantiate`.  The STAB resource
address is a parameter of the model (it is allocated by the runtime). -/
def instantiate (stabAddress : Addr) : StabState where
  collaterals := []
  poolUnits := []
  collateralRatios := []
  cdpCounter := 0
  cdps := []
  stabAddress := stabAddress
  internalStabPrice := 1
  circulatingStab := 0
  markers := []
  cdpMarkerCounter := 0
  markedCdps := []
  markedCdpsActive := 0
  markerPlacingCounter := 0
  liquidationReceipts := []
  liquidationCounter := 0
  parameters :=
    { minimumMint := 1
      maxVectorLength := 250
      liquidationDelay := 5
      unmarkedDelay := 5
      liquidationLiquidationFine := 1/10
      stabilisLiquidationFine := 5/100
      stopLiquidations := false
      stopOpenings := false
      stopClosings := false
      stopForceMint := false
      stopForceLiquidate := false
      forceMintCrMultiplier := 3 }

/-! ## Small monadic helpers for the `Except`-based embedding -/

/-- A failed `assert!` aborts the transaction. -/
def guardE (p : Prop) [Decidable p] (msg : String) : Except String Unit :=
  if p then .ok () else .error msg

/-- `Option::unwrap` / `expect`: a failed unwrap aborts the transaction. -/
def need {α : Type} (o : Option α) (msg : String) : Except String α :=
  match o with
  | some v => .ok v
  | none => .error msg

/-- `self.collaterals.get_mut(&a).unwrap()` followed by a field update. -/
def modColl (s : StabState) (a : Addr) (f : CollateralInfo → CollateralInfo) :
    Except String StabState := do
  let info ← need (alookup s.collaterals a) "collateral not found"
  .ok { s with collaterals := aset s.collaterals a (f info) }

/-- `self.pool_units.get_mut(&a).unwrap()` followed by a field update. -/
def modPool (s : StabState) (a : Addr) (f : PoolUnitInfo → PoolUnitInfo) :
    Except String StabState := do
  let info ← need (alookup s.poolUnits a) "pool unit not found"
  .ok { s with poolUnits := aset s.poolUnits a (f info) }

/-! ## Helper methods of the `Stabilis` component -/

/-- `pool_to_real`: real value of collateral.  For pool units the
external validator / one-resource-pool redemption value is modelled as a
per-resource rate `rate collateral` per pool unit. -/
def poolToReal (rate : Addr → ℚ) (amount : ℚ) (collateral : Addr)
    (pool : Bool) : ℚ :=
  if pool then rate collateral * amount else amount

/-- `insert_cr`: insert a collateral ratio into the AvlTree; aborts when
the target bucket is full.  Also bumps `highest_cr`. -/
def insertCr (s : StabState) (parentAddress : Addr) (cr : ℚ) (cdpId : NFId) :
    Except String StabState := do
  let tree ← need (alookup s.collateralRatios parentAddress) "tree not found"
  let s ←
    match tget tree cr with
    | some cdpIds => do
        guardE (cdpIds.length < s.parameters.maxVectorLength)
          "CR vector is full..."
        let newTree := tset tree cr (cdpIds ++ [cdpId])
        .ok { s with collateralRatios := aset s.collateralRatios parentAddress newTree }
    | none =>
        let newTree := tset tree cr [cdpId]
        .ok { s with collateralRatios := aset s.collateralRatios parentAddress newTree }
  let info ← need (alookup s.collaterals parentAddress) "collateral not found"
  if info.highestCr < cr then
    .ok { s with collaterals := aset s.collaterals parentAddress { info with highestCr := cr } }
  else
    .ok s

/-- `remove_cr`: remove a CDP id from a CR bucket, dropping the bucket
when it becomes empty. -/
def removeCr (s : StabState) (parentAddress : Addr) (cr : ℚ)
    (receiptId : NFId) : Except String StabState := do
  let tree ← need (alookup s.collateralRatios parentAddress) "tree not found"
  let collateralIds ← need (tget tree cr) "CR bucket not found"
  let collateralIds := collateralIds.filter (fun id => id ≠ receiptId)
  let tree := tset tree cr collateralIds
  let tree := if collateralIds.isEmpty then tremove tree cr else tree
  .ok { s with collateralRatios := aset s.collateralRatios parentAddress tree }

/-- `check_share`: abort when a collateral's minted-STAB share is too
big. -/
def checkShare (s : StabState) (parentCollateralAddress : Addr)
    (isPoolUnitCollateral : Bool) (collateralAddress : Addr) :
    Except String Unit := do
  let parent ← need (alookup s.collaterals parentCollateralAddress)
    "collateral not found"
  guardE (parent.mintedStab / s.circulatingStab ≤ parent.maxStabShare)
    "collateral share too big already"
  if isPoolUnitCollateral then do
    let pu ← need (alookup s.poolUnits collateralAddress) "pool unit not found"
    guardE (pu.mintedStab / parent.mintedStab ≤ pu.maxPoolShare)
      "pool collateral share too big already"
  else
    .ok ()

/-- `update_minted_stab`: move the per-parent, per-pool-unit and
circulating minted-STAB aggregates up or down by `amount`, optionally
checking share caps afterwards. -/
def updateMintedStab (s : StabState) (add : Bool)
    (isPoolUnitCollateral : Bool) (checkShareFlag : Bool) (amount : ℚ)
    (collateral : Addr) (poolUnit : Addr) : Except String StabState := do
  let s ← modColl s collateral (fun c =>
    { c with mintedStab :=
        if add then c.mintedStab + amount else c.mintedStab - amount })
  let s ←
    if isPoolUnitCollateral then
      modPool s poolUnit (fun p =>
        { p with mintedStab :=
            if add then p.mintedStab + amount else p.mintedStab - amount })
    else
      .ok s
  let s := { s with circulatingStab := if add then s.circulatingStab + amount else s.circulatingStab - amount }
  if checkShareFlag then do
    checkShare s collateral isPoolUnitCollateral poolUnit
    .ok s
  else
    .ok s

/-- `take_collateral`: withdraw from the correct vault.  A withdrawal
exceeding the vault balance aborts. -/
def takeCollateral (s : StabState) (collateral : Addr) (pool : Bool)
    (amount : ℚ) : Except String (StabState × Bucket) :=
  if pool then do
    let pu ← need (alookup s.poolUnits collateral) "pool unit not found"
    guardE (amount ≤ pu.vault) "vault balance too low"
    let s := { s with poolUnits := aset s.poolUnits collateral { pu with vault := pu.vault - amount } }
    .ok (s, ⟨collateral, amount⟩)
  else do
    let info ← need (alookup s.collaterals collateral) "collateral not found"
    guardE (amount ≤ info.vault) "vault balance too low"
    let s := { s with collaterals := aset s.collaterals collateral { info with vault := info.vault - amount } }
    .ok (s, ⟨collateral, amount⟩)

/-- `put_collateral`: deposit a bucket into the correct vault. -/
def putCollateral (s : StabState) (collateral : Addr) (pool : Bool)
    (b : Bucket) : Except String StabState :=
  if pool then
    modPool s collateral (fun p => { p with vault := p.vault + b.amount })
  else
    modColl s collateral (fun c => { c with vault := c.vault + b.amount })

/-- `put_collateral_in_treasury`. -/
def putCollateralInTreasury (s : StabState) (collateral : Addr) (pool : Bool)
    (b : Bucket) : Except String StabState :=
  if pool then
    modPool s collateral (fun p => { p with treasury := p.treasury + b.amount })
  else
    modColl s collateral (fun c => { c with treasury := c.treasury + b.amount })

/-! ## The engine operations -/

/-- `open_cdp`: borrow STAB by opening a CDP.  Returns the minted STAB
bucket and the new CDP receipt id. -/
def openCdp (rate : Addr → ℚ) (s : StabState) (collateral : Bucket)
    (stabToMint : ℚ) : Except String (StabState × Bucket × NFId) := do
  let stabTokens : Bucket := ⟨s.stabAddress, stabToMint⟩
  guardE (stabTokens.amount ≥ s.parameters.minimumMint)
    "minted STAB is less than the minimum required amount"
  guardE (¬s.parameters.stopOpenings) "not allowed to open loans right now"
  let isPoolUnitCollateral ←
    match alookup s.poolUnits collateral.resource with
    | some pu => do
        guardE pu.accepted "this collateral is not accepted"
        .ok true
    | none => do
        guardE (((alookup s.collaterals collateral.resource).map
          (fun c => c.accepted)).getD false) "this collateral is not accepted"
        .ok false
  let collateralAmount :=
    poolToReal rate collateral.amount collateral.resource isPoolUnitCollateral
  let parentCollateralAddress ←
    if isPoolUnitCollateral then do
      let pu ← need (alookup s.poolUnits collateral.resource)
        "pool unit not found"
      .ok pu.parentAddress
    else
      .ok collateral.resource
  let s ← modColl s parentCollateralAddress (fun c =>
    { c with collateralAmount := c.collateralAmount + collateralAmount })
  let parentInfo ← need (alookup s.collaterals parentCollateralAddress)
    "collateral not found"
  let mcr := parentInfo.mcr
  guardE (parentInfo.usdPrice * collateralAmount ≥
      s.internalStabPrice * stabTokens.amount * mcr) "collateral value too low"
  let s := { s with cdpCounter := s.cdpCounter + 1 }
  let cr := collateralAmount / stabTokens.amount
  let s ←
    if parentInfo.initialized then
      insertCr s parentCollateralAddress cr s.cdpCounter
    else do
      let avlTree : CrTree := [(cr, [s.cdpCounter])]
      let s := { s with collateralRatios := aset s.collateralRatios parentCollateralAddress avlTree }
      let s ← modColl s parentCollateralAddress (fun c =>
        { c with initialized := true })
      modColl s parentCollateralAddress (fun c => { c with highestCr := cr })
  let cdp : Cdp :=
    { collateral := collateral.resource
      parentAddress := parentCollateralAddress
      isPoolUnitCollateral := isPoolUnitCollateral
      collateralAmount := collateral.amount
      mintedStab := stabTokens.amount
      collateralStabRatio := cr
      status := .Healthy
      markerId := 0 }
  let s ← updateMintedStab s true isPoolUnitCollateral true stabTokens.amount
    parentCollateralAddress collateral.resource
  let s := { s with cdps := aset s.cdps s.cdpCounter cdp }
  let s ← putCollateral s collateral.resource isPoolUnitCollateral collateral
  .ok (s, stabTokens, s.cdpCounter)

/-- `close_cdp`: close a loan by paying off the debt.  Returns the
collateral and the leftover STAB. -/
def closeCdp (s : StabState) (receiptId : NFId) (stabPayment : Bucket) :
    Except String (StabState × Bucket × Bucket) := do
  let receiptData ← need (alookup s.cdps receiptId) "no such CDP"
  guardE (stabPayment.amount ≥ receiptData.mintedStab)
    "not enough STAB supplied to close completely"
  guardE (¬s.parameters.stopClosings) "not allowed to close loans right now"
  guardE (receiptData.status = .Healthy) "loan not healthy"
  guardE (stabPayment.resource = s.stabAddress) "invalid STAB payment"
  let (s, collateral) ← takeCollateral s receiptData.collateral
    receiptData.isPoolUnitCollateral receiptData.collateralAmount
  let s ← modColl s receiptData.parentAddress (fun c =>
    { c with collateralAmount := c.collateralAmount -
        receiptData.collateralStabRatio * receiptData.mintedStab })
  let s ← updateMintedStab s false receiptData.isPoolUnitCollateral false
    receiptData.mintedStab receiptData.parentAddress receiptData.collateral
  let stabPayment : Bucket :=
    { stabPayment with amount := stabPayment.amount - receiptData.mintedStab }
  let s ← removeCr s receiptData.parentAddress
    receiptData.collateralStabRatio receiptId
  let s := { s with cdps := aset s.cdps receiptId { receiptData with status := .Closed, collateralAmount := 0 } }
  .ok (s, collateral, stabPayment)

/-- `retrieve_leftover_collateral`. -/
def retrieveLeftoverCollateral (s : StabState) (receiptId : NFId) :
    Except String (StabState × Bucket) := do
  let receiptData ← need (alookup s.cdps receiptId) "no such CDP"
  guardE (receiptData.status = .Liquidated ∨
      receiptData.status = .ForceLiquidated) "loan not liquidated"
  guardE (receiptData.collateralAmount > 0) "no collateral leftover"
  guardE (¬s.parameters.stopClosings) "not allowed to close loans right now"
  let s := { s with cdps := aset s.cdps receiptId { receiptData with collateralAmount := 0 } }
  takeCollateral s receiptData.collateral receiptData.isPoolUnitCollateral
    receiptData.collateralAmount

/-- `top_up_cdp`: add collateral to a loan; un-marks a marked loan. -/
def topUpCdp (rate : Addr → ℚ) (s : StabState) (collateralId : NFId)
    (collateral : Bucket) : Except String StabState := do
  let receiptData ← need (alookup s.cdps collateralId) "no such CDP"
  let newCollateralAmount := receiptData.collateralAmount + collateral.amount
  guardE (receiptData.status = .Healthy ∨ receiptData.status = .Marked)
    "loan not healthy or marked"
  guardE (receiptData.collateral = collateral.resource) "incompatible token"
  let s ←
    if receiptData.status = .Healthy then
      removeCr s receiptData.parentAddress receiptData.collateralStabRatio
        collateralId
    else
      .ok s
  let cr := poolToReal rate newCollateralAmount collateral.resource
    receiptData.isPoolUnitCollateral / receiptData.mintedStab
  let s ← modColl s receiptData.parentAddress (fun c =>
    { c with collateralAmount := c.collateralAmount +
        (cr - receiptData.collateralStabRatio) * receiptData.mintedStab })
  let parentInfo ← need (alookup s.collaterals receiptData.parentAddress)
    "collateral not found"
  guardE (cr > parentInfo.liquidationCollateralRatio)
    "not enough collateral added to save this loan"
  let s ← insertCr s receiptData.parentAddress cr collateralId
  let s ← putCollateral s receiptData.collateral
    receiptData.isPoolUnitCollateral collateral
  let s := { s with cdps := aset s.cdps collateralId { receiptData with collateralStabRatio := cr, collateralAmount := newCollateralAmount } }
  if receiptData.status = .Marked then do
    let markerData ← need (alookup s.markers receiptData.markerId)
      "no such marker"
    let s := { s with cdps := aset s.cdps collateralId { receiptData with collateralStabRatio := cr, collateralAmount := newCollateralAmount, status := .Healthy } }
    let s := { s with markers := aset s.markers receiptData.markerId { markerData with used := true } }
    let s := { s with markedCdps := tremove s.markedCdps markerData.markerPlacing }
    .ok { s with markedCdpsActive := s.markedCdpsActive - 1 }
  else
    .ok s

/-- `remove_collateral`: withdraw collateral from a healthy loan. -/
def removeCollateral (rate : Addr → ℚ) (s : StabState) (collateralId : NFId)
    (amount : ℚ) : Except String (StabState × Bucket) := do
  let receiptData ← need (alookup s.cdps collateralId) "no such CDP"
  let newCollateralAmount := receiptData.collateralAmount - amount
  guardE (receiptData.status = .Healthy) "loan not healthy"
  guardE (¬s.parameters.stopClosings)
    "not allowed to close loans or remove collateral right now"
  let s ← removeCr s receiptData.parentAddress receiptData.collateralStabRatio
    collateralId
  let cr := poolToReal rate newCollateralAmount receiptData.collateral
    receiptData.isPoolUnitCollateral / receiptData.mintedStab
  let s ← modColl s receiptData.parentAddress (fun c =>
    { c with collateralAmount := c.collateralAmount +
        (cr - receiptData.collateralStabRatio) * receiptData.mintedStab })
  let s ← insertCr s receiptData.parentAddress cr collateralId
  let parentInfo ← need (alookup s.collaterals receiptData.parentAddress)
    "collateral not found"
  guardE (cr > parentInfo.liquidationCollateralRatio)
    "removal would put the CR below MCR"
  let (s, removedCollateral) ← takeCollateral s receiptData.collateral
    receiptData.isPoolUnitCollateral amount
  let s := { s with cdps := aset s.cdps collateralId { receiptData with collateralStabRatio := cr, collateralAmount := newCollateralAmount } }
  .ok (s, removedCollateral)

/-- `partial_close_cdp`: pay off part of the debt; delegates to
`close_cdp` when the repayment exceeds the debt. -/
def partCloseCdp (rate : Addr → ℚ) (s : StabState) (collateralId : NFId)
    (repayment : Bucket) :
    Except String (StabState × Option Bucket × Option Bucket) := do
  guardE (¬s.parameters.stopClosings)
    "not allowed to close loans or remove collateral right now"
  guardE (repayment.resource = s.stabAddress) "invalid STAB payment"
  let receiptData ← need (alookup s.cdps collateralId) "no such CDP"
  let newStabAmount := receiptData.mintedStab - repayment.amount
  if newStabAmount < 0 then do
    let (s, collateral, leftoverPayment) ← closeCdp s collateralId repayment
    .ok (s, some collateral, some leftoverPayment)
  else do
    guardE (newStabAmount ≥ s.parameters.minimumMint)
      "resulting borrowed STAB needs to be above minimum mint"
    guardE (receiptData.status = .Healthy ∨ receiptData.status = .Marked)
      "loan not healthy or marked"
    let s ←
      if receiptData.status = .Healthy then
        removeCr s receiptData.parentAddress receiptData.collateralStabRatio
          collateralId
      else
        .ok s
    let cr := poolToReal rate receiptData.collateralAmount
      receiptData.collateral receiptData.isPoolUnitCollateral / newStabAmount
    let s ← updateMintedStab s false receiptData.isPoolUnitCollateral false
      repayment.amount receiptData.parentAddress receiptData.collateral
    let s ← insertCr s receiptData.parentAddress cr collateralId
    let parentInfo ← need (alookup s.collaterals receiptData.parentAddress)
      "collateral not found"
    guardE (cr > parentInfo.liquidationCollateralRatio) "CR below MCR"
    let s := { s with cdps := aset s.cdps collateralId { receiptData with collateralStabRatio := cr, mintedStab := newStabAmount } }
    if receiptData.status = .Marked then do
      let markerData ← need (alookup s.markers receiptData.markerId)
        "no such marker"
      let s := { s with cdps := aset s.cdps collateralId { receiptData with collateralStabRatio := cr, mintedStab := newStabAmount, status := .Healthy } }
      let s := { s with markers := aset s.markers receiptData.markerId { markerData with used := true } }
      let s := { s with markedCdps := tremove s.markedCdps markerData.markerPlacing }
      .ok ({ s with markedCdpsActive := s.markedCdpsActive - 1 }, none, none)
    else
      .ok (s, none, none)

/-- `borrow_more`: mint additional STAB against an existing loan. -/
def borrowMore (rate : Addr → ℚ) (s : StabState) (collateralId : NFId)
    (amount : ℚ) : Except String (StabState × Bucket) := do
  let receiptData ← need (alookup s.cdps collateralId) "no such CDP"
  let newStabAmount := receiptData.mintedStab + amount
  guardE (receiptData.status = .Healthy) "loan not healthy"
  guardE (¬s.parameters.stopOpenings) "not allowed to open loans right now"
  let s ← removeCr s receiptData.parentAddress receiptData.collateralStabRatio
    collateralId
  let cr := poolToReal rate receiptData.collateralAmount
    receiptData.collateral receiptData.isPoolUnitCollateral / newStabAmount
  let s ← updateMintedStab s true receiptData.isPoolUnitCollateral true amount
    receiptData.parentAddress receiptData.collateral
  let s ← insertCr s receiptData.parentAddress cr collateralId
  let parentInfo ← need (alookup s.collaterals receiptData.parentAddress)
    "collateral not found"
  guardE (cr > parentInfo.liquidationCollateralRatio)
    "removal would put the CR below MCR"
  let s := { s with cdps := aset s.cdps collateralId { receiptData with collateralStabRatio := cr, mintedStab := newStabAmount } }
  .ok (s, ⟨s.stabAddress, amount⟩)

/-- `mark_for_liquidation`: mark the lowest-CR loan of a collateral.
Returns the new marker receipt id. -/
def markForLiquidation (rate : Addr → ℚ) (now : ℤ) (s : StabState)
    (collateral : Addr) : Except String (StabState × NFId) := do
  let tree ← need (alookup s.collateralRatios collateral) "tree not found"
  let firstEntry ← need (tfirst tree) "no CR entries"
  let collateralId ← need firstEntry.2.head? "empty CR bucket"
  let info ← need (alookup s.collaterals collateral) "collateral not found"
  let lcr := info.liquidationCollateralRatio
  let data ← need (alookup s.cdps collateralId) "no such CDP"
  guardE (data.collateralStabRatio < lcr) "no possible liquidations"
  let cr := poolToReal rate data.collateralAmount data.collateral
    data.isPoolUnitCollateral / data.mintedStab
  let s ← modColl s collateral (fun c =>
    { c with collateralAmount := c.collateralAmount +
        (cr - data.collateralStabRatio) * data.mintedStab })
  let s := { s with markerPlacingCounter := s.markerPlacingCounter + 1, cdpMarkerCounter := s.cdpMarkerCounter + 1 }
  let id := s.markerPlacingCounter
  let marker : CdpMarker :=
    { markType := .Marked
      timeMarked := now
      markedId := collateralId
      markerPlacing := s.markerPlacingCounter
      used := false }
  let s ← removeCr s data.parentAddress data.collateralStabRatio collateralId
  let tree2 ← need (alookup s.collateralRatios collateral) "tree not found"
  let cdpIds := (tget tree2 cr).getD []
  if cr > lcr ∧ cdpIds.length < s.parameters.maxVectorLength then do
    let s ← insertCr s data.parentAddress cr collateralId
    let s := { s with cdps := aset s.cdps collateralId { data with collateralStabRatio := cr } }
    let marker := { marker with markType := .Saved }
    let s := { s with markers := aset s.markers s.cdpMarkerCounter marker }
    .ok (s, s.cdpMarkerCounter)
  else do
    let s := { s with markedCdps := tset s.markedCdps id collateralId, markedCdpsActive := s.markedCdpsActive + 1 }
    let s := { s with cdps := aset s.cdps collateralId { data with markerId := s.cdpMarkerCounter, status := .Marked } }
    let s := { s with markers := aset s.markers s.cdpMarkerCounter marker }
    .ok (s, s.cdpMarkerCounter)

/-- `force_liquidate`: liquidate part of the lowest-CR loan immediately,
for a fee. -/
def forceLiquidate (rate : Addr → ℚ) (s : StabState) (collateral : Addr)
    (payment : Bucket) (percentageToTake : ℚ) (assertNonMarkable : Bool) :
    Except String (StabState × Bucket × Bucket) := do
  guardE (¬s.parameters.stopForceLiquidate)
    "not allowed to forceliquidate loans right now"
  guardE (payment.resource = s.stabAddress) "invalid STAB payment"
  let tree ← need (alookup s.collateralRatios collateral) "tree not found"
  let firstEntry ← need (tfirst tree) "no CR entries"
  let collateralId ← need firstEntry.2.head? "empty CR bucket"
  let data ← need (alookup s.cdps collateralId) "no such CDP"
  let s ← removeCr s data.parentAddress data.collateralStabRatio collateralId
  let cr := poolToReal rate data.collateralAmount data.collateral
    data.isPoolUnitCollateral / data.mintedStab
  let info ← need (alookup s.collaterals collateral) "collateral not found"
  let lcr := info.liquidationCollateralRatio
  if assertNonMarkable then
    guardE (cr > lcr) "CR is too low; liquidate via the normal procedure"
  let crPercentage := info.mcr * cr / lcr
  let (percentageToLiquidate, paymentAmount, newStabAmount) :=
    if payment.amount > data.mintedStab then
      ((1 : ℚ), data.mintedStab, (0 : ℚ))
    else
      (payment.amount / data.mintedStab, payment.amount,
       data.mintedStab - payment.amount)
  let newCollateralAmount := data.collateralAmount -
    data.collateralAmount * percentageToLiquidate * percentageToTake /
      crPercentage
  let newCollateralAmount :=
    if newCollateralAmount < 0 then 0 else newCollateralAmount
  guardE (crPercentage > 1 ∨ percentageToLiquidate = 1)
    "CR below 100 percent; entire loan must be liquidated"
  let payment := { payment with amount := payment.amount - paymentAmount }
  let s ← updateMintedStab s false data.isPoolUnitCollateral false
    paymentAmount data.parentAddress data.collateral
  let (s, collateralPayment) ← takeCollateral s data.collateral
    data.isPoolUnitCollateral (data.collateralAmount - newCollateralAmount)
  let newCollateralAmount := data.collateralAmount - collateralPayment.amount
  let s := { s with cdps := aset s.cdps collateralId { data with collateralAmount := newCollateralAmount, mintedStab := newStabAmount } }
  if percentageToLiquidate < 1 then do
    let newCr := poolToReal rate newCollateralAmount data.collateral
      data.isPoolUnitCollateral / newStabAmount
    let s ← modColl s data.parentAddress (fun c =>
      { c with collateralAmount := c.collateralAmount +
          (newCr - data.collateralStabRatio) * data.mintedStab })
    let s ← insertCr s data.parentAddress newCr collateralId
    let s := { s with cdps := aset s.cdps collateralId { data with collateralAmount := newCollateralAmount, mintedStab := newStabAmount, collateralStabRatio := newCr } }
    .ok (s, collateralPayment, payment)
  else do
    let s := { s with cdps := aset s.cdps collateralId { data with collateralAmount := newCollateralAmount, mintedStab := newStabAmount, status := .ForceLiquidated } }
    let s ← modColl s data.parentAddress (fun c =>
      { c with collateralAmount := c.collateralAmount -
          data.collateralStabRatio * data.mintedStab })
    .ok (s, collateralPayment, payment)

/-- The descending scan of `force_mint`: the first CDP, iterating CR
buckets from high to low, whose collateral matches the payment
resource. -/
def forceMintFind (cdps : List (NFId × Cdp)) (paymentResource : Addr)
    (entries : List (ℚ × List NFId)) : Option (NFId × Cdp) :=
  (entries.flatMap (fun e => e.2)).findSome? (fun id =>
    match alookup cdps id with
    | some d =>
        if d.collateral = paymentResource then some (id, d) else none
    | none => none)

/-- `force_mint`: add collateral to the highest-CR loan and mint STAB
against it.  Returns the minted STAB and any excess collateral.  The two
distinct abort messages of the source scan (no CDP found at all versus
no CDP with matching collateral) are merged into one abort. -/
def forceMint (rate : Addr → ℚ) (s : StabState) (collateral : Addr)
    (payment : Bucket) (percentageToSupply : ℚ) :
    Except String (StabState × Bucket × Option Bucket) := do
  guardE (¬s.parameters.stopForceMint) "not allowed to force mint right now"
  let tree ← need (alookup s.collateralRatios collateral) "tree not found"
  let info0 ← need (alookup s.collaterals collateral) "collateral not found"
  let found := forceMintFind s.cdps payment.resource
    (trangeBack tree (info0.highestCr + 1))
  let (collateralId, data) ← need found "no suitable mints found"
  let pr := poolToReal rate 1 data.collateral data.isPoolUnitCollateral
  let minCollateralRatio := s.parameters.forceMintCrMultiplier *
    info0.liquidationCollateralRatio
  let collateralPrice := info0.usdPrice
  let k := s.internalStabPrice / (pr * collateralPrice) * percentageToSupply
  let maxAddition := (k * (data.collateralAmount * pr -
    minCollateralRatio * data.mintedStab)) /
    (minCollateralRatio - k * pr)
  let (payment, returnBucket) :=
    if payment.amount > maxAddition then
      (({ payment with amount := maxAddition } : Bucket),
       some ({ payment with amount := payment.amount - maxAddition } : Bucket))
    else
      (payment, none)
  let s ← removeCr s data.parentAddress data.collateralStabRatio collateralId
  let newMintedStab := data.mintedStab + payment.amount / k
  let newCollateralAmount := data.collateralAmount + payment.amount
  let newCr := poolToReal rate newCollateralAmount data.collateral
    data.isPoolUnitCollateral / newMintedStab
  let s ← modColl s data.parentAddress (fun c =>
    { c with collateralAmount := c.collateralAmount +
        (newCr - data.collateralStabRatio) * data.mintedStab })
  let s := { s with cdps := aset s.cdps collateralId { data with mintedStab := newMintedStab, collateralAmount := newCollateralAmount, collateralStabRatio := newCr } }
  let s ← insertCr s data.parentAddress newCr collateralId
  let stabTokens : Bucket := ⟨s.stabAddress, payment.amount / k⟩
  let s ← updateMintedStab s false data.isPoolUnitCollateral false
    stabTokens.amount data.parentAddress data.collateral
  let s ← putCollateral s data.collateral data.isPoolUnitCollateral payment
  .ok (s, stabTokens, returnBucket)

/-- `liquidate` (helper): perform a liquidation.  Returns the collateral
reward, the leftover STAB and the liquidation receipt id. -/
def liquidate (s : StabState) (payment : Bucket) (markerData : CdpMarker)
    (markerId : NFId) (cdpData : Cdp) (cr : ℚ) (now : ℤ) :
    Except String (StabState × Bucket × Bucket × NFId) := do
  let s ← updateMintedStab s false cdpData.isPoolUnitCollateral false
    cdpData.mintedStab cdpData.parentAddress cdpData.collateral
  let s ← modColl s cdpData.parentAddress (fun c =>
    { c with collateralAmount := c.collateralAmount -
        cdpData.collateralStabRatio * cdpData.mintedStab })
  let info ← need (alookup s.collaterals cdpData.parentAddress)
    "collateral not found"
  let mcr := info.mcr
  let liqCr := info.liquidationCollateralRatio
  let receipt0 : LiquidationReceipt :=
    { collateral := cdpData.collateral
      stabPaid := cdpData.mintedStab
      percentageOwed := 1 + s.parameters.liquidationLiquidationFine
      percentageReceived := 1 + s.parameters.liquidationLiquidationFine
      cdpLiquidated := markerData.markedId
      dateLiquidated := now }
  let s := { s with liquidationCounter := s.liquidationCounter + 1 }
  let s := { s with markedCdps := tremove s.markedCdps markerData.markerPlacing, markedCdpsActive := s.markedCdpsActive - 1 }
  let storedMarker ← need (alookup s.markers markerId) "no such marker"
  let s := { s with markers := aset s.markers markerId { storedMarker with used := true } }
  let cdpStored ← need (alookup s.cdps markerData.markedId) "no such CDP"
  let s := { s with cdps := aset s.cdps markerData.markedId { cdpStored with status := .Liquidated } }
  guardE (cdpData.mintedStab ≤ payment.amount) "not enough STAB to liquidate"
  let payment := { payment with amount := payment.amount - cdpData.mintedStab }
  let crPercentage := mcr * cr / liqCr
  let fine := s.parameters.liquidationLiquidationFine
  let sfine := s.parameters.stabilisLiquidationFine
  let (liquidationPaymentAmount, treasuryPaymentAmount, percentageReceived) :=
    if crPercentage > 1 + fine + sfine then
      ((1 + fine) * (cdpData.collateralAmount / crPercentage),
       if sfine > 0 then
         some (sfine * (cdpData.collateralAmount / crPercentage))
       else none,
       1 + fine)
    else if crPercentage > 1 + fine then
      ((1 + fine) * (cdpData.collateralAmount / crPercentage),
       some (cdpData.collateralAmount -
         (1 + fine) * (cdpData.collateralAmount / crPercentage)),
       1 + fine)
    else
      (cdpData.collateralAmount, none, crPercentage)
  let receipt := { receipt0 with percentageReceived := percentageReceived }
  let s := { s with liquidationReceipts := aset s.liquidationReceipts s.liquidationCounter receipt }
  let (s, treasuryPayment) ←
    match treasuryPaymentAmount with
    | some amt => do
        let (s, b) ← takeCollateral s cdpData.collateral
          cdpData.isPoolUnitCollateral amt
        .ok (s, some b)
    | none => .ok (s, (none : Option Bucket))
  let (s, liquidationPayment) ← takeCollateral s cdpData.collateral
    cdpData.isPoolUnitCollateral liquidationPaymentAmount
  let leftoverCollateral := cdpData.collateralAmount -
    liquidationPayment.amount -
    ((treasuryPayment.map Bucket.amount).getD 0)
  let cdpStored2 ← need (alookup s.cdps markerData.markedId) "no such CDP"
  let s := { s with cdps := aset s.cdps markerData.markedId { cdpStored2 with collateralAmount := leftoverCollateral } }
  let s ←
    match treasuryPayment with
    | some b =>
        putCollateralInTreasury s cdpData.collateral cdpData.isPoolUnitCollateral b
    | none => .ok s
  .ok (s, liquidationPayment, payment, s.liquidationCounter)

/-- `save` (helper): return a marked loan to the healthy state and issue
a `Saved` marker.  Returns the new marker receipt id. -/
def save (now : ℤ) (s : StabState) (markerData : CdpMarker) (cdpData : Cdp)
    (cr : ℚ) : Except String (StabState × NFId) := do
  let s ← modColl s cdpData.parentAddress (fun c =>
    { c with collateralAmount := c.collateralAmount +
        (cr - cdpData.collateralStabRatio) * cdpData.mintedStab })
  let s := { s with markerPlacingCounter := s.markerPlacingCounter + 1, cdpMarkerCounter := s.cdpMarkerCounter + 1 }
  let marker : CdpMarker :=
    { markType := .Saved
      timeMarked := now
      markedId := markerData.markedId
      markerPlacing := s.markerPlacingCounter
      used := false }
  let s := { s with markers := aset s.markers s.cdpMarkerCounter marker }
  let s := { s with markedCdps := tremove s.markedCdps markerData.markerPlacing, markedCdpsActive := s.markedCdpsActive - 1 }
  let cdpStored ← need (alookup s.cdps markerData.markedId) "no such CDP"
  let s := { s with cdps := aset s.cdps markerData.markedId { cdpStored with status := .Healthy, collateralStabRatio := cr } }
  let oldMarker ← need (alookup s.markers cdpData.markerId) "no such marker"
  let s := { s with markers := aset s.markers cdpData.markerId { oldMarker with used := true } }
  let s ← insertCr s cdpData.parentAddress cr markerData.markedId
  .ok (s, s.cdpMarkerCounter)

/-- Outcome of `try_liquidate`. -/
inductive LiqOutcome where
  | liquidated (liquidationPayment : Bucket) (remainder : Bucket)
      (receiptId : NFId)
  | saved (returnedPayment : Bucket) (markerReceiptId : NFId)
deriving DecidableEq, Repr

/-- `try_liquidate` (helper): validity checks, then liquidate or save. -/
def tryLiquidate (rate : Addr → ℚ) (now : ℤ) (s : StabState)
    (payment : Bucket) (cdpData : Cdp) (markerData : CdpMarker)
    (markerId : NFId) (delay : ℤ) :
    Except String (StabState × LiqOutcome) := do
  let info ← need (alookup s.collaterals cdpData.parentAddress)
    "collateral not found"
  let liquidationCollateralRatio := info.liquidationCollateralRatio
  guardE (¬s.parameters.stopLiquidations)
    "not allowed to liquidate loans right now"
  guardE (¬markerData.used ∧ markerData.markType = .Marked) "non-valid marker"
  guardE (payment.amount ≥ cdpData.mintedStab)
    "not enough STAB supplied to close completely"
  guardE (now ≥ markerData.timeMarked + 60 * delay) "not yet able to liquidate"
  guardE (cdpData.status = .Marked) "loan not marked"
  let cr := poolToReal rate cdpData.collateralAmount cdpData.collateral
    cdpData.isPoolUnitCollateral / cdpData.mintedStab
  if cr < liquidationCollateralRatio then do
    let (s, liquidationPayment, remainder, receiptId) ←
      liquidate s payment markerData markerId cdpData cr now
    .ok (s, .liquidated liquidationPayment remainder receiptId)
  else do
    let (s, markerReceiptId) ← save now s markerData cdpData cr
    .ok (s, .saved payment markerReceiptId)

/-- `liquidate_position_with_marker`. -/
def liquidatePositionWithMarker (rate : Addr → ℚ) (now : ℤ) (s : StabState)
    (markerId : NFId) (payment : Bucket) :
    Except String (StabState × LiqOutcome) := do
  guardE (payment.resource = s.stabAddress) "invalid STAB payment"
  let markerData ← need (alookup s.markers markerId) "no such marker"
  let cdpData ← need (alookup s.cdps markerData.markedId) "no such CDP"
  tryLiquidate rate now s payment cdpData markerData markerId
    s.parameters.liquidationDelay

/-- `liquidate_position_without_marker`. -/
def liquidatePositionWithoutMarker (rate : Addr → ℚ) (now : ℤ)
    (s : StabState) (payment : Bucket) (skip : Option ℤ) (cdpId : NFId) :
    Except String (StabState × LiqOutcome) := do
  guardE (payment.resource = s.stabAddress) "invalid STAB payment"
  let collateralId ←
    match skip with
    | none => .ok cdpId
    | some n =>
        let l := s.markedCdps.filter (fun p => 0 ≤ p.1)
        match (if 0 ≤ n then l.get? n.toNat else none) with
        | some e => .ok e.2
        | none =>
            if l.length = 0 then .error "no loans available to liquidate"
            else .error "too many skipped"
  let cdpData ← need (alookup s.cdps collateralId) "no such CDP"
  let markerData ← need (alookup s.markers cdpData.markerId) "no such marker"
  tryLiquidate rate now s payment cdpData markerData cdpData.markerId
    (s.parameters.liquidationDelay + s.parameters.unmarkedDelay)

/-- `change_collateral_price`: set a collateral's price and recompute its
liquidation collateral ratio. -/
def changeCollateralPrice (s : StabState) (collateral : Addr)
    (newPrice : ℚ) : Except String StabState := do
  let info ← need (alookup s.collaterals collateral) "collateral not found"
  let mcr := info.mcr
  .ok { s with collaterals := aset s.collaterals collateral { info with usdPrice := newPrice, liquidationCollateralRatio := mcr * (s.internalStabPrice / newPrice) } }

/-- `add_collateral`. -/
def addCollateral (s : StabState) (address : Addr) (chosenMcr : ℚ)
    (initialPrice : ℚ) : Except String StabState := do
  guardE (alookup s.collaterals address = none) "collateral already accepted"
  let info : CollateralInfo :=
    { mcr := chosenMcr
      usdPrice := initialPrice
      liquidationCollateralRatio :=
        chosenMcr * s.internalStabPrice / initialPrice
      vault := 0
      resourceAddress := address
      treasury := 0
      accepted := true
      initialized := false
      maxStabShare := 1
      mintedStab := 0
      collateralAmount := 0
      highestCr := 0 }
  .ok { s with collaterals := aset s.collaterals address info }

/-- `add_pool_collateral`. -/
def addPoolCollateral (s : StabState) (address parentAddress : Addr)
    (lsu : Bool) (initialAcceptance : Bool) : Except String StabState := do
  guardE (alookup s.poolUnits address = none) "collateral already accepted"
  let info : PoolUnitInfo :=
    { vault := 0
      treasury := 0
      lsu := lsu
      parentAddress := parentAddress
      address := address
      accepted := initialAcceptance
      maxPoolShare := 1
      mintedStab := 0 }
  .ok { s with poolUnits := aset s.poolUnits address info }

/-- `change_internal_price`: sets the internal price, and nothing else. -/
def changeInternalPrice (s : StabState) (newPrice : ℚ) : StabState :=
  { s with internalStabPrice := newPrice }

/-- `burn_marker`: burn a used marker receipt (the marker is identified
by its id in the marker store). -/
def burnMarker (s : StabState) (markerId : NFId) :
    Except String StabState := do
  let data ← need (alookup s.markers markerId) "no such marker"
  guardE data.used "only used markers can be burned"
  .ok { s with markers := aerase s.markers markerId }

/-- `burn_loan_receipt`. -/
def burnLoanReceipt (s : StabState) (receiptId : NFId) :
    Except String StabState := do
  let data ← need (alookup s.cdps receiptId) "no such loan receipt"
  guardE (data.status = .Liquidated ∨ data.status = .ForceLiquidated ∨
      data.status = .Closed) "loan not closed or liquidated"
  guardE (data.collateralAmount = 0) "retrieve all collateral before burning"
  .ok { s with cdps := aerase s.cdps receiptId }

/-! ## Transactions

An engine operation together with its caller-supplied arguments and the
external environment it observes (the pool-unit redemption rates and the
clock). -/

/-- One engine transaction. -/
inductive Op where
  | openCdp (rate : Addr → ℚ) (collateral : Bucket) (stabToMint : ℚ)
  | closeCdp (id : NFId) (payment : Bucket)
  | partCloseCdp (rate : Addr → ℚ) (id : NFId) (payment : Bucket)
  | borrowMore (rate : Addr → ℚ) (id : NFId) (amount : ℚ)
  | topUpCdp (rate : Addr → ℚ) (id : NFId) (collateral : Bucket)
  | removeCollateral (rate : Addr → ℚ) (id : NFId) (amount : ℚ)
  | markForLiquidation (rate : Addr → ℚ) (now : ℤ) (collateral : Addr)
  | liquidateWithMarker (rate : Addr → ℚ) (now : ℤ) (markerId : NFId)
      (payment : Bucket)
  | liquidateWithoutMarker (rate : Addr → ℚ) (now : ℤ) (payment : Bucket)
      (skip : Option ℤ) (cdpId : NFId)
  | forceLiquidate (rate : Addr → ℚ) (collateral : Addr) (payment : Bucket)
      (percentageToTake : ℚ) (assertNonMarkable : Bool)
  | forceMint (rate : Addr → ℚ) (collateral : Addr) (payment : Bucket)
      (percentageToSupply : ℚ)
  | retrieveLeftoverCollateral (id : NFId)
  | burnMarker (id : NFId)
  | burnLoanReceipt (id : NFId)
  | changeCollateralPrice (collateral : Addr) (newPrice : ℚ)
  | changeInternalPrice (newPrice : ℚ)
  | addCollateral (address : Addr) (chosenMcr : ℚ) (initialPrice : ℚ)
  | addPoolCollateral (address : Addr) (parentAddress : Addr) (lsu : Bool)
      (initialAcceptance : Bool)

/-- Execute one transaction, discarding the returned buckets. -/
def execOp (s : StabState) : Op → Except String StabState
  | .openCdp rate collateral stabToMint =>
      (openCdp rate s collateral stabToMint).map (fun r => r.1)
  | .closeCdp id payment => (closeCdp s id payment).map (fun r => r.1)
  | .partCloseCdp rate id payment =>
      (partCloseCdp rate s id payment).map (fun r => r.1)
  | .borrowMore rate id amount => (borrowMore rate s id amount).map (fun r => r.1)
  | .topUpCdp rate id collateral => topUpCdp rate s id collateral
  | .removeCollateral rate id amount =>
      (removeCollateral rate s id amount).map (fun r => r.1)
  | .markForLiquidation rate now collateral =>
      (markForLiquidation rate now s collateral).map (fun r => r.1)
  | .liquidateWithMarker rate now markerId payment =>
      (liquidatePositionWithMarker rate now s markerId payment).map (fun r => r.1)
  | .liquidateWithoutMarker rate now payment skip cdpId =>
      (liquidatePositionWithoutMarker rate now s payment skip cdpId).map (fun r => r.1)
  | .forceLiquidate rate collateral payment pct anm =>
      (forceLiquidate rate s collateral payment pct anm).map (fun r => r.1)
  | .forceMint rate collateral payment pct =>
      (forceMint rate s collateral payment pct).map (fun r => r.1)
  | .retrieveLeftoverCollateral id =>
      (retrieveLeftoverCollateral s id).map (fun r => r.1)
  | .burnMarker id => burnMarker s id
  | .burnLoanReceipt id => burnLoanReceipt s id
  | .changeCollateralPrice collateral newPrice =>
      changeCollateralPrice s collateral newPrice
  | .changeInternalPrice newPrice => .ok (changeInternalPrice s newPrice)
  | .addCollateral address mcr price => addCollateral s address mcr price
  | .addPoolCollateral address parent lsu acc =>
      addPoolCollateral s address parent lsu acc

/-- Run one transaction: a failed transaction rolls back, leaving the
state unchanged. -/
def applyOp (s : StabState) (op : Op) : StabState :=
  match execOp s op with
  | .ok s' => s'
  | .error _ => s

/-- Run a sequence of transactions. -/
def run (s : StabState) (ops : List Op) : StabState :=
  ops.foldl applyOp s

/-! ## The proxy / peg controller (`proxy.rs`) -/

/-- The PID interest-rate parameters (`InterestParameters`). -/
structure InterestParameters where
  kp : ℚ
  ki : ℚ
  maxInterestRate : ℚ
  minInterestRate : ℚ
  allowedDeviation : ℚ
  maxPriceError : ℚ
  priceErrorOffset : ℚ
deriving DecidableEq, Repr

/-- The STAB price data of the proxy (`StabPriceData`). -/
structure StabPriceData where
  latestStabPriceErrors : List (ℕ × ℚ)
  latestStabPriceErrorsTotal : ℚ
  lastUpdate : ℤ
  lastChangedPrice : ℕ
  internalPrice : ℚ
  fullCache : Bool
  interestRate : ℚ
deriving DecidableEq, Repr

/-- `update_internal_price`: one tick of the PID controller.  `pow` is
the `Decimal::pow` primitive of the external `scrypto_math` crate
(`interest_rate.pow(passed_minutes)`), passed in as a function.  The
market price of STAB read from the AMM pool is `stabPoolPrice`, the XRD
price is the proxy's stored `xrd_price`. -/
def updateInternalPrice (pow : ℚ → ℚ → ℚ) (params : InterestParameters)
    (updateDelay : ℤ) (numberOfCachedPrices : ℕ) (stabPoolPrice : ℚ)
    (xrdPrice : ℚ) (now : ℤ) (d : StabPriceData) : StabPriceData :=
  let passedMinutes : ℚ := ((now : ℚ) - (d.lastUpdate : ℚ)) / 60
  if passedMinutes < (updateDelay : ℚ) then d
  else
    let priceError : ℚ :=
      stabPoolPrice * xrdPrice * params.priceErrorOffset - d.internalPrice
    let priceError :=
      if priceError > params.maxPriceError then params.maxPriceError
      else priceError
    let (toChangeId, fullCache) :=
      if d.lastChangedPrice ≥ numberOfCachedPrices then (1, true)
      else (d.lastChangedPrice + 1, d.fullCache)
    let total :=
      if ¬fullCache then d.latestStabPriceErrorsTotal + priceError
      else d.latestStabPriceErrorsTotal + priceError -
        ((alookup d.latestStabPriceErrors toChangeId).getD 0)
    let errors := aset d.latestStabPriceErrors toChangeId priceError
    let interestRate :=
      if |priceError| > params.allowedDeviation * d.internalPrice then
        let r := d.interestRate -
          (params.kp * (priceError / d.internalPrice) +
           params.ki * (total /
             (d.internalPrice * (numberOfCachedPrices : ℚ)))) * passedMinutes
        if r > params.maxInterestRate then params.maxInterestRate
        else if r < params.minInterestRate then params.minInterestRate
        else r
      else d.interestRate
    let calculatedPrice := d.internalPrice * pow interestRate passedMinutes
    { latestStabPriceErrors := errors
      latestStabPriceErrorsTotal := total
      lastUpdate := now
      lastChangedPrice := toChangeId
      internalPrice := calculatedPrice
      fullCache := fullCache
      interestRate := interestRate }

/-- The per-price loop of `update_collateral_prices`: walk the oracle
price list, update the stored timestamps (and the XRD price), and
accumulate the timestamp deltas of the known collaterals.  Prices whose
address is unknown are skipped.  (Each accepted entry also forwards a
`change_collateral_price` call to the engine, which is modelled
separately by `changeCollateralPrice`.) -/
def collectPriceUpdates (xrdAddress : Addr) :
    List (Addr × ℚ × ℕ) → List (Addr × ℕ) → ℚ →
    (List (Addr × ℕ) × ℚ × ℕ)
  | [], accepted, xrdPrice => (accepted, xrdPrice, 0)
  | (address, price, timestamp) :: rest, accepted, xrdPrice =>
    match alookup accepted address with
    | some storedTimestamp =>
        let xrdPrice := if address = xrdAddress then price else xrdPrice
        let accepted := aset accepted address timestamp
        let (accepted', xrdPrice', seconds) :=
          collectPriceUpdates xrdAddress rest accepted xrdPrice
        (accepted', xrdPrice', timestamp - storedTimestamp + seconds)
    | none => collectPriceUpdates xrdAddress rest accepted xrdPrice

/-- `update_collateral_prices`: returns the new stored timestamps, the
new XRD price, the new reward-vault balance and the reward bucket paid
to the caller (`None` when the vault does not strictly exceed the
reward). -/
def updateCollateralPrices (xrdAddress : Addr)
    (prices : List (Addr × ℚ × ℕ)) (accepted : List (Addr × ℕ))
    (xrdPrice : ℚ) (rewardVault : ℚ) (rewardPerSecond : ℚ) :
    (List (Addr × ℕ) × ℚ × ℚ × Option ℚ) :=
  let (accepted', xrdPrice', updatedSeconds) :=
    collectPriceUpdates xrdAddress prices accepted xrdPrice
  let reward : ℚ := (updatedSeconds : ℚ) * rewardPerSecond
  if rewardVault > reward then
    (accepted', xrdPrice', rewardVault - reward, some reward)
  else
    (accepted', xrdPrice', rewardVault, none)

/-! ## Accounting sums (spec invariant 1) -/

/-- A CDP status is active (non-terminal) when it is `Healthy` or
`Marked`. -/
def activeStatus (st : CdpStatus) : Bool :=
  st = CdpStatus.Healthy ∨ st = CdpStatus.Marked

/-- Sum of `minted_stab` over all active (non-terminal) CDP records. -/
def sumActiveCdpMintedStab (s : StabState) : ℚ :=
  (s.cdps.filter (fun p => activeStatus p.2.status)).foldl
    (fun acc p => acc + p.2.mintedStab) 0

/-- Sum of `minted_stab` over all parent `CollateralInfo` records. -/
def sumParentMintedStab (s : StabState) : ℚ :=
  s.collaterals.foldl (fun acc p => acc + p.2.mintedStab) 0

/-! ## Shared concrete scenario states

Collateral resource `1` with `mcr = 1.5` and initial price `1`; the STAB
resource address is `100`; pool-unit redemption rates are irrelevant for
raw collateral, so the rate environment is constantly `1`. -/

/-- The trivial redemption-rate environment. -/
def demoRate : Addr → ℚ := fun _ => 1

/-- `instantiate` followed by `add_collateral(1, 1.5, 1)`. -/
def baseState : StabState :=
  applyOp (instantiate 100) (.addCollateral 1 (3/2) 1)

/-- `open_cdp` with 1000 collateral, minting 500 STAB (CDP id 1). -/
def openState : StabState :=
  applyOp baseState (.openCdp demoRate ⟨1, 1000⟩ 500)

/-- After `open_cdp(1000, 500)`, a collateral price drop to `0.5`
(`lcr` becomes 3) and `mark_for_liquidation` at time 0 (marker id 1). -/
def markedState : StabState :=
  run openState [.changeCollateralPrice 1 (1/2), .markForLiquidation demoRate 0 1]

/-- The CDP record of `markedState`. -/
def demoMarkedCdp : Cdp :=
  { collateral := 1
    parentAddress := 1
    isPoolUnitCollateral := false
    collateralAmount := 1000
    mintedStab := 500
    collateralStabRatio := 2
    status := .Marked
    markerId := 1 }

/-- The marker record of `markedState`. -/
def demoMarker : CdpMarker :=
  { markType := .Marked
    timeMarked := 0
    markedId := 1
    markerPlacing := 1
    used := false }

/-- `markedState` after the collateral price recovers to `1`
(`lcr` back to 1.5, the marked CDP's CR of 2 is healthy again). -/
def recoveredState : StabState :=
  applyOp markedState (.changeCollateralPrice 1 1)

/-- The CDP record of `openState`. -/
def demoOpenCdp : Cdp :=
  { collateral := 1
    parentAddress := 1
    isPoolUnitCollateral := false
    collateralAmount := 1000
    mintedStab := 500
    collateralStabRatio := 2
    status := .Healthy
    markerId := 0 }

/-- `baseState` after `change_collateral_price(1, 2)`. -/
def c2AlteredState : StabState :=
  (changeCollateralPrice baseState 1 2).toOption.getD baseState

/-- The trace of the force-mint accounting bug: `open_cdp(360, 10)`
followed by `force_mint(payment = 100, percentage = 1)`. -/
def forceMintOps : List Op :=
  [ .addCollateral 1 (3/2) 1,
    .openCdp demoRate ⟨1, 360⟩ 10,
    .forceMint demoRate 1 ⟨1, 100⟩ 1 ]

/-- The spec's fee-regime-crossover scenario: `open_cdp(4500, 2000)`,
internal price changed to 2, collateral price refreshed at 1
(`lcr = 3`), then mark; `crPct = 1.125`. -/
def crossoverState : StabState :=
  run (instantiate 100)
    [ .addCollateral 1 (3/2) 1,
      .openCdp demoRate ⟨1, 4500⟩ 2000,
      .changeInternalPrice 2,
      .changeCollateralPrice 1 1,
      .markForLiquidation demoRate 0 1 ]

/-! ## Parametric single-CDP states for the liquidation / force-mint
arithmetic -/

/-- Parent collateral info of the parametric scenarios. -/
def scenInfo (C d mcr usd lcr highest : ℚ) : CollateralInfo :=
  { mcr := mcr
    usdPrice := usd
    liquidationCollateralRatio := lcr
    vault := C
    resourceAddress := 1
    treasury := 0
    accepted := true
    initialized := true
    maxStabShare := 1
    mintedStab := d
    collateralAmount := C
    highestCr := highest }

/-- A marked CDP holding `C` collateral against `d` STAB. -/
def scenMarkedCdp (C d : ℚ) : Cdp :=
  { collateral := 1
    parentAddress := 1
    isPoolUnitCollateral := false
    collateralAmount := C
    mintedStab := d
    collateralStabRatio := C / d
    status := .Marked
    markerId := 1 }

/-- A healthy CDP holding `C` collateral against `d` STAB. -/
def scenHealthyCdp (C d : ℚ) : Cdp :=
  { collateral := 1
    parentAddress := 1
    isPoolUnitCollateral := false
    collateralAmount := C
    mintedStab := d
    collateralStabRatio := C / d
    status := .Healthy
    markerId := 0 }

/-- The marker of the parametric marked scenario. -/
def scenMarker : CdpMarker :=
  { markType := .Marked
    timeMarked := 0
    markedId := 1
    markerPlacing := 1
    used := false }

/-- Default protocol parameters with fines `α`, `β`. -/
def scenParameters (α β : ℚ) : ProtocolParameters :=
  { minimumMint := 1
    maxVectorLength := 250
    liquidationDelay := 5
    unmarkedDelay := 5
    liquidationLiquidationFine := α
    stabilisLiquidationFine := β
    stopLiquidations := false
    stopOpenings := false
    stopClosings := false
    stopForceMint := false
    stopForceLiquidate := false
    forceMintCrMultiplier := 3 }

/-- A state holding exactly one marked CDP (id 1, marker id 1) on parent
collateral 1, with fines `α` and `β`. -/
def liqScenState (C d mcr usd lcr α β : ℚ) : StabState :=
  { collaterals := [(1, scenInfo C d mcr usd lcr 0)]
    poolUnits := []
    collateralRatios := [(1, [])]
    cdpCounter := 1
    cdps := [(1, scenMarkedCdp C d)]
    stabAddress := 100
    internalStabPrice := 1
    circulatingStab := d
    markers := [(1, scenMarker)]
    cdpMarkerCounter := 1
    markedCdps := [(1, 1)]
    markedCdpsActive := 1
    markerPlacingCounter := 1
    liquidationReceipts := []
    liquidationCounter := 0
    parameters := scenParameters α β }

/-- A state holding exactly one healthy CDP (id 1) indexed at CR `C/d`,
with force-mint multiplier `mult`. -/
def fmScenState (C d mcr usd internal lcr mult : ℚ) : StabState :=
  { collaterals := [(1, scenInfo C d mcr usd lcr (C / d))]
    poolUnits := []
    collateralRatios := [(1, [(C / d, [1])])]
    cdpCounter := 1
    cdps := [(1, scenHealthyCdp C d)]
    stabAddress := 100
    internalStabPrice := internal
    circulatingStab := d
    markers := []
    cdpMarkerCounter := 0
    markedCdps := []
    markedCdpsActive := 0
    markerPlacingCounter := 0
    liquidationReceipts := []
    liquidationCounter := 0
    parameters := { scenParameters (1/10) (5/100) with forceMintCrMultiplier := mult } }

/-- The collateral-per-STAB constant `k` computed by `force_mint` for a
raw (non-pool-unit) collateral, where `pool_to_real = 1`:
`internal_stab_price / (pool_to_real × usd_price) × percentage_to_supply`. -/
def fmScenK (usd internal pct : ℚ) : ℚ := internal / (1 * usd) * pct

/-- The maximum collateral addition computed by `force_mint`:
`k × (c · pr − minCr · s) / (minCr − k · pr)` with
`minCr = force_mint_cr_multiplier × lcr` and `pr = 1`. -/
def fmScenMaxAddition (C d usd internal lcr mult pct : ℚ) : ℚ :=
  (fmScenK usd internal pct * (C * 1 - mult * lcr * d)) /
    (mult * lcr - fmScenK usd internal pct * 1)

/-! ## The marker invariant (C10)

Every `Saved` marker is unused, marker keys lie in `[1, cdp_marker_counter]`,
and every `Marked` CDP points via `marker_id` at a live `Marked` marker whose
`marked_id` points back at the CDP. -/

/-- The marker invariant over the marker store `M`, the CDP store `C` and the
CDP-marker counter `K`. -/
def MarkerInvOn (M : List (NFId × CdpMarker)) (C : List (NFId × Cdp))
    (K : ℕ) : Prop :=
  (∀ k m, alookup M k = some m →
    (m.markType = CdpUpdate.Saved → m.used = false) ∧ 1 ≤ k ∧ k ≤ K) ∧
  (∀ i c, alookup C i = some c → c.status = CdpStatus.Marked →
    ∃ m, alookup M c.markerId = some m ∧ m.markType = CdpUpdate.Marked ∧
      m.used = false ∧ m.markedId = i)

/-- The marker invariant of a protocol state. -/
def MarkerInv (s : StabState) : Prop :=
  MarkerInvOn s.markers s.cdps s.cdpMarkerCounter

/-- `t` agrees with `s` on the marker store, the CDP store and the
CDP-marker counter. -/
def MFrame (s t : StabState) : Prop :=
  t.markers = s.markers ∧ t.cdps = s.cdps ∧
  t.cdpMarkerCounter = s.cdpMarkerCounter


/-- A transaction trace whose last step saves a marked loan, minting a
`Saved` marker (id 2): open 1000/500, price to 0.5, mark at t = 0, price
back to 1, then liquidate at t = 300 (the delay is 5 min). -/
def c10Ops : List Op :=
  [ .addCollateral 1 (3/2) 1,
    .openCdp demoRate ⟨1, 1000⟩ 500,
    .changeCollateralPrice 1 (1/2),
    .markForLiquidation demoRate 0 1,
    .changeCollateralPrice 1 1,
    .liquidateWithMarker demoRate 300 1 ⟨100, 500⟩ ]

/-- The `Saved` marker minted by the save in `c10Ops`. -/
def c10SavedMarker : CdpMarker :=
  { markType := .Saved
    timeMarked := 300
    markedId := 1
    markerPlacing := 2
    used := false }

/-! ## Lemmas about the store primitives -/

theorem alookup_aset_self {κ α : Type} [DecidableEq κ]
    (l : List (κ × α)) (k : κ) (v : α) : alookup (aset l k v) k = some v := by
  simp [aset, alookup]

theorem alookup_filter_ne {κ α : Type} [DecidableEq κ]
    (l : List (κ × α)) (k k' : κ) (h : k' ≠ k) :
    alookup (l.filter (fun p => p.1 ≠ k)) k' = alookup l k' := by
  induction l with
  | nil => rfl
  | cons p rest ih =>
    obtain ⟨a, b⟩ := p
    rw [List.filter_cons]
    simp only [ne_eq, decide_not] at ih ⊢
    by_cases hk : a = k
    · subst hk
      simp only [decide_True, Bool.not_true, Bool.false_eq_true, if_false, ih]
      simp [alookup, h]
    · rw [if_pos (by simp [hk])]
      simp [alookup, ih]

theorem alookup_aset_ne {κ α : Type} [DecidableEq κ]
    (l : List (κ × α)) (k k' : κ) (v : α) (h : k' ≠ k) :
    alookup (aset l k v) k' = alookup l k' := by
  simp only [aset, alookup, if_neg h]
  exact alookup_filter_ne l k k' h

theorem alookup_aerase {κ α : Type} [DecidableEq κ]
    (l : List (κ × α)) (k k' : κ) :
    alookup (aerase l k) k' = if k' = k then none else alookup l k' := by
  by_cases h : k' = k
  · subst h
    simp only [if_pos rfl, aerase]
    induction l with
    | nil => rfl
    | cons p rest ih =>
      obtain ⟨a, b⟩ := p
      rw [List.filter_cons]
      by_cases hk : a = k'
      · subst hk
        simpa using ih
      · rw [if_pos (by simpa using hk)]
        simp only [alookup, if_neg (Ne.symm hk)]  -- k' ≠ a needed
        exact ih
  · rw [if_neg h]
    exact alookup_filter_ne l k k' h

theorem tget_tset_self {α : Type} (l : List (ℚ × α)) (k : ℚ) (v : α) :
    tget (tset l k v) k = some v := by
  induction l with
  | nil => simp [tset, tget, alookup]
  | cons p rest ih =>
    cases p with
    | mk k' v' =>
      simp only [tset]
      by_cases h1 : k < k'
      · simp [h1, tget, alookup]
      · by_cases h2 : k = k'
        · simp [h1, h2, tget, alookup]
        · simp only [if_neg h1, if_neg h2]
          simpa [tget, alookup, h2] using ih

theorem tget_tset_ne {α : Type} (l : List (ℚ × α)) (k k' : ℚ) (v : α)
    (h : k' ≠ k) : tget (tset l k v) k' = tget l k' := by
  induction l with
  | nil => simp [tset, tget, alookup, h]
  | cons p rest ih =>
    cases p with
    | mk a b =>
      simp only [tset]
      by_cases h1 : k < a
      · simp [if_pos h1, tget, alookup, h]
      · by_cases h2 : k = a
        · subst h2
          simp [if_neg h1, tget, alookup, h]
        · simp only [if_neg h1, if_neg h2]
          by_cases h3 : k' = a
          · simp [tget, alookup, h3]
          · simpa [tget, alookup, h3] using ih

/-! ## The C10 marker invariant machinery -/

theorem bind_eq_ok {α β : Type} {e : Except String α}
    {f : α → Except String β} {b : β} :
    e >>= f = .ok b ↔ ∃ a, e = .ok a ∧ f a = .ok b := by
  cases e <;> simp [Bind.bind, Except.bind]

theorem guardE_eq_ok {p : Prop} [Decidable p] {msg : String} {u : Unit} :
    guardE p msg = .ok u ↔ p := by
  by_cases h : p <;> simp [guardE, h]

theorem need_eq_ok {α : Type} {o : Option α} {msg : String} {v : α} :
    need o msg = .ok v ↔ o = some v := by
  cases o <;> simp [need]

theorem map_eq_ok {α β : Type} {f : α → β} {e : Except String α} {b : β} :
    Except.map f e = .ok b ↔ ∃ a, e = .ok a ∧ f a = b := by
  cases e <;> simp [Except.map]

theorem pure_eq_ok {α : Type} {a b : α} :
    (pure a : Except String α) = .ok b ↔ a = b := by
  simp [pure, Except.pure]

theorem error_ne_ok {α : Type} {m : String} {b : α} :
    (Except.error m : Except String α) = .ok b ↔ False := by
  simp

theorem ite_eq_ok {α : Type} {p : Prop} [Decidable p]
    {A B : Except String α} {b : α} :
    (if p then A else B) = .ok b ↔
      (p ∧ A = .ok b) ∨ (¬p ∧ B = .ok b) := by
  by_cases hp : p <;> simp [hp]

theorem mframe_rfl (s : StabState) : MFrame s s := ⟨rfl, rfl, rfl⟩

theorem mframe_trans {s t u : StabState} (h1 : MFrame s t)
    (h2 : MFrame t u) : MFrame s u :=
  ⟨h2.1.trans h1.1, h2.2.1.trans h1.2.1, h2.2.2.trans h1.2.2⟩

theorem mframe_trans2 {s t u : StabState} (h2 : MFrame t u)
    (h1 : MFrame s t) : MFrame s u :=
  mframe_trans h1 h2

theorem markerInv_of_mframe {s t : StabState} (hf : MFrame s t)
    (h : MarkerInv s) : MarkerInv t := by
  obtain ⟨h1, h2, h3⟩ := hf
  unfold MarkerInv
  rw [h1, h2, h3]
  exact h

theorem mframe_modColl {s : StabState} {a : Addr}
    {f : CollateralInfo → CollateralInfo} {t : StabState}
    (h : modColl s a f = .ok t) : MFrame s t := by
  rw [modColl] at h
  simp only [bind_eq_ok, need_eq_ok] at h
  obtain ⟨info, hinfo, ht⟩ := h
  injection ht with ht
  subst ht
  exact ⟨rfl, rfl, rfl⟩

theorem mframe_modPool {s : StabState} {a : Addr}
    {f : PoolUnitInfo → PoolUnitInfo} {t : StabState}
    (h : modPool s a f = .ok t) : MFrame s t := by
  rw [modPool] at h
  simp only [bind_eq_ok, need_eq_ok] at h
  obtain ⟨info, hinfo, ht⟩ := h
  injection ht with ht
  subst ht
  exact ⟨rfl, rfl, rfl⟩

theorem mframe_insertCr {s : StabState} {p : Addr} {cr : ℚ} {id : NFId}
    {t : StabState} (h : insertCr s p cr id = .ok t) : MFrame s t := by
  rw [insertCr] at h
  simp only [bind_eq_ok, need_eq_ok] at h
  obtain ⟨tree, htree, h⟩ := h
  cases htg : tget tree cr with
  | some ids =>
    simp only [htg, bind_eq_ok, need_eq_ok, guardE_eq_ok, Except.ok.injEq,
      exists_eq_left, exists_eq_left', exists_const] at h
    obtain ⟨hlen, info, hinfo, hfin⟩ := h
    by_cases hc : info.highestCr < cr
    · rw [if_pos hc] at hfin
      injection hfin with hfin
      subst hfin
      exact ⟨rfl, rfl, rfl⟩
    · rw [if_neg hc] at hfin
      injection hfin with hfin
      subst hfin
      exact ⟨rfl, rfl, rfl⟩
  | none =>
    simp only [htg, bind_eq_ok, need_eq_ok, Except.ok.injEq,
      exists_eq_left, exists_eq_left', exists_const] at h
    obtain ⟨info, hinfo, hfin⟩ := h
    by_cases hc : info.highestCr < cr
    · rw [if_pos hc] at hfin
      injection hfin with hfin
      subst hfin
      exact ⟨rfl, rfl, rfl⟩
    · rw [if_neg hc] at hfin
      injection hfin with hfin
      subst hfin
      exact ⟨rfl, rfl, rfl⟩

theorem mframe_removeCr {s : StabState} {p : Addr} {cr : ℚ} {id : NFId}
    {t : StabState} (h : removeCr s p cr id = .ok t) : MFrame s t := by
  rw [removeCr] at h
  simp only [bind_eq_ok, need_eq_ok, Except.ok.injEq] at h
  obtain ⟨tree, htree, ids, hids, ht⟩ := h
  subst ht
  exact ⟨rfl, rfl, rfl⟩

theorem mframe_takeCollateral {s : StabState} {c : Addr} {pool : Bool}
    {amt : ℚ} {t : StabState} {b : Bucket}
    (h : takeCollateral s c pool amt = .ok (t, b)) : MFrame s t := by
  rw [takeCollateral] at h
  cases hp : pool <;>
    simp only [hp, Bool.false_eq_true, if_false, if_true, bind_eq_ok,
      need_eq_ok, guardE_eq_ok, exists_const, Except.ok.injEq,
      Prod.mk.injEq] at h
  · obtain ⟨info, hinfo, hle, ht, hb⟩ := h
    subst ht
    exact ⟨rfl, rfl, rfl⟩
  · obtain ⟨pu, hpu, hle, ht, hb⟩ := h
    subst ht
    exact ⟨rfl, rfl, rfl⟩

theorem mframe_putCollateral {s : StabState} {c : Addr} {pool : Bool}
    {b : Bucket} {t : StabState}
    (h : putCollateral s c pool b = .ok t) : MFrame s t := by
  rw [putCollateral] at h
  cases hp : pool <;>
    simp only [hp, Bool.false_eq_true, if_false, if_true] at h
  · exact mframe_modColl h
  · exact mframe_modPool h

theorem mframe_putCollateralInTreasury {s : StabState} {c : Addr}
    {pool : Bool} {b : Bucket} {t : StabState}
    (h : putCollateralInTreasury s c pool b = .ok t) : MFrame s t := by
  rw [putCollateralInTreasury] at h
  cases hp : pool <;>
    simp only [hp, Bool.false_eq_true, if_false, if_true] at h
  · exact mframe_modColl h
  · exact mframe_modPool h

theorem mframe_updateMintedStab {s : StabState} {add pool chk : Bool}
    {amount : ℚ} {c pu : Addr} {t : StabState}
    (h : updateMintedStab s add pool chk amount c pu = .ok t) :
    MFrame s t := by
  rw [updateMintedStab] at h
  simp only [bind_eq_ok] at h
  obtain ⟨s1, hs1, h⟩ := h
  have hf1 := mframe_modColl hs1
  cases hp : pool <;>
    simp only [hp, Bool.false_eq_true, if_false, if_true, bind_eq_ok,
      Except.ok.injEq, exists_eq_left, exists_eq_left', exists_const] at h
  · cases hc : chk <;>
      simp only [hc, Bool.false_eq_true, if_false, if_true, bind_eq_ok,
        Except.ok.injEq, exists_const] at h
    · subst h
      exact mframe_trans hf1 ⟨rfl, rfl, rfl⟩
    · obtain ⟨u, hshare, h⟩ := h
      subst h
      exact mframe_trans hf1 ⟨rfl, rfl, rfl⟩
  · obtain ⟨s2, hs2, h⟩ := h
    have hf2 := mframe_modPool hs2
    cases hc : chk <;>
      simp only [hc, Bool.false_eq_true, if_false, if_true, bind_eq_ok,
        Except.ok.injEq, exists_const] at h
    · subst h
      exact mframe_trans (mframe_trans hf1 hf2) ⟨rfl, rfl, rfl⟩
    · obtain ⟨u, hshare, h⟩ := h
      subst h
      exact mframe_trans (mframe_trans hf1 hf2) ⟨rfl, rfl, rfl⟩

theorem alookup_aset_aset {κ α : Type} [DecidableEq κ] (l : List (κ × α))
    (k : κ) (v w : α) (j : κ) :
    alookup (aset (aset l k v) k w) j = alookup (aset l k w) j := by
  by_cases hj : j = k
  · subst hj
    rw [alookup_aset_self, alookup_aset_self]
  · rw [alookup_aset_ne _ _ _ _ hj, alookup_aset_ne _ _ _ _ hj,
      alookup_aset_ne _ _ _ _ hj]

theorem invOn_congr {M : List (NFId × CdpMarker)} {C C' : List (NFId × Cdp)}
    {K : ℕ} (h : MarkerInvOn M C K)
    (heq : ∀ j, alookup C' j = alookup C j) : MarkerInvOn M C' K := by
  obtain ⟨h1, h2⟩ := h
  refine ⟨h1, ?_⟩
  intro i c hc hst
  rw [heq i] at hc
  exact h2 i c hc hst

theorem markerInv_transport {M M2 : List (NFId × CdpMarker)}
    {C C2 : List (NFId × Cdp)} {K K2 : ℕ} (h : MarkerInvOn M C K)
    (hM : M2 = M) (hK : K2 = K)
    (heq : ∀ j, alookup C2 j = alookup C j) : MarkerInvOn M2 C2 K2 := by
  subst hM
  subst hK
  exact invOn_congr h heq

theorem invOn_set_cdp_notMarked {M : List (NFId × CdpMarker)}
    {C : List (NFId × Cdp)} {K : ℕ} {i : NFId} {c : Cdp}
    (h : MarkerInvOn M C K) (hc : c.status ≠ CdpStatus.Marked) :
    MarkerInvOn M (aset C i c) K := by
  obtain ⟨h1, h2⟩ := h
  refine ⟨h1, ?_⟩
  intro j cj hj hst
  by_cases hji : j = i
  · subst hji
    rw [alookup_aset_self] at hj
    cases hj
    exact absurd hst hc
  · rw [alookup_aset_ne _ _ _ _ hji] at hj
    exact h2 j cj hj hst

theorem invOn_set_cdp_same {M : List (NFId × CdpMarker)}
    {C : List (NFId × Cdp)} {K : ℕ} {i : NFId} {c : Cdp} (c₀ : Cdp)
    (h : MarkerInvOn M C K) (h0 : alookup C i = some c₀)
    (hs : c.status = c₀.status) (hm : c.markerId = c₀.markerId) :
    MarkerInvOn M (aset C i c) K := by
  obtain ⟨h1, h2⟩ := h
  refine ⟨h1, ?_⟩
  intro j cj hj hst
  by_cases hji : j = i
  · subst hji
    rw [alookup_aset_self] at hj
    cases hj
    obtain ⟨m, hmk, hT, hU, hId⟩ := h2 _ c₀ h0 (hs.symm.trans hst)
    exact ⟨m, by rw [hm]; exact hmk, hT, hU, hId⟩
  · rw [alookup_aset_ne _ _ _ _ hji] at hj
    exact h2 j cj hj hst

theorem invOn_erase_cdp {M : List (NFId × CdpMarker)}
    {C : List (NFId × Cdp)} {K : ℕ} {i : NFId}
    (h : MarkerInvOn M C K) : MarkerInvOn M (aerase C i) K := by
  obtain ⟨h1, h2⟩ := h
  refine ⟨h1, ?_⟩
  intro j cj hj hst
  rw [alookup_aerase] at hj
  by_cases hji : j = i
  · simp [hji] at hj
  · rw [if_neg hji] at hj
    exact h2 j cj hj hst

theorem invOn_counter_mono {M : List (NFId × CdpMarker)}
    {C : List (NFId × Cdp)} {K L : ℕ}
    (h : MarkerInvOn M C K) (hKL : K ≤ L) : MarkerInvOn M C L := by
  obtain ⟨h1, h2⟩ := h
  refine ⟨?_, h2⟩
  intro k m hk
  obtain ⟨p1, p2, p3⟩ := h1 k m hk
  exact ⟨p1, p2, p3.trans hKL⟩

theorem invOn_insert_marker {M : List (NFId × CdpMarker)}
    {C : List (NFId × Cdp)} {K k : ℕ} {m : CdpMarker}
    (h : MarkerInvOn M C K) (hkK : K < k)
    (hm : m.markType = CdpUpdate.Saved → m.used = false) :
    MarkerInvOn (aset M k m) C k := by
  obtain ⟨h1, h2⟩ := h
  constructor
  · intro j mj hj
    by_cases hjk : j = k
    · subst hjk
      rw [alookup_aset_self] at hj
      cases hj
      exact ⟨hm, Nat.lt_of_le_of_lt (Nat.zero_le _) hkK, le_refl _⟩
    · rw [alookup_aset_ne _ _ _ _ hjk] at hj
      obtain ⟨p1, p2, p3⟩ := h1 j mj hj
      exact ⟨p1, p2, p3.trans hkK.le⟩
  · intro i c hc hst
    obtain ⟨mm, hmm, hT, hU, hId⟩ := h2 i c hc hst
    have hne : c.markerId ≠ k :=
      Nat.ne_of_lt (Nat.lt_of_le_of_lt (h1 _ _ hmm).2.2 hkK)
    exact ⟨mm, by rw [alookup_aset_ne _ _ _ _ hne]; exact hmm, hT, hU, hId⟩

theorem invOn_mark {M : List (NFId × CdpMarker)} {C : List (NFId × Cdp)}
    {K k : ℕ} {i : NFId} {c : Cdp} {m : CdpMarker}
    (h : MarkerInvOn M C K) (hkK : K < k)
    (hmT : m.markType = CdpUpdate.Marked) (hmu : m.used = false)
    (hmi : m.markedId = i) (hck : c.markerId = k) :
    MarkerInvOn (aset M k m) (aset C i c) k := by
  have h' := invOn_insert_marker h hkK
    (fun hS => absurd (hmT.symm.trans hS) (by decide))
  obtain ⟨h1, h2⟩ := h'
  refine ⟨h1, ?_⟩
  intro j cj hj hst
  by_cases hji : j = i
  · subst hji
    rw [alookup_aset_self] at hj
    cases hj
    exact ⟨m, by rw [hck]; exact alookup_aset_self M k m, hmT, hmu, hmi⟩
  · rw [alookup_aset_ne _ _ _ _ hji] at hj
    exact h2 j cj hj hst

theorem invOn_set_marker_used {M : List (NFId × CdpMarker)}
    {C : List (NFId × Cdp)} {K : ℕ} {k : NFId} {m₀ : CdpMarker}
    (h : MarkerInvOn M C K) (hm0 : alookup M k = some m₀)
    (hT : m₀.markType = CdpUpdate.Marked)
    (hno : ∀ j c, alookup C j = some c → c.status = CdpStatus.Marked →
      c.markerId ≠ k) :
    MarkerInvOn (aset M k { m₀ with used := true }) C K := by
  obtain ⟨h1, h2⟩ := h
  constructor
  · intro j mj hj
    by_cases hjk : j = k
    · subst hjk
      rw [alookup_aset_self] at hj
      cases hj
      obtain ⟨_, p2, p3⟩ := h1 _ _ hm0
      exact ⟨fun hS => absurd (hT.symm.trans hS) (by decide), p2, p3⟩
    · rw [alookup_aset_ne _ _ _ _ hjk] at hj
      exact h1 j mj hj
  · intro i c hc hst
    obtain ⟨m, hm, hmT, hmU, hId⟩ := h2 i c hc hst
    have hne := hno i c hc hst
    exact ⟨m, by rw [alookup_aset_ne _ _ _ _ hne]; exact hm, hmT, hmU, hId⟩

theorem invOn_liquidate_update {M : List (NFId × CdpMarker)}
    {C : List (NFId × Cdp)} {K : ℕ} {k i : NFId} {m₀ : CdpMarker} {c : Cdp}
    (h : MarkerInvOn M C K) (hm0 : alookup M k = some m₀)
    (hT : m₀.markType = CdpUpdate.Marked) (hIdEq : m₀.markedId = i)
    (hcs : c.status ≠ CdpStatus.Marked) :
    MarkerInvOn (aset M k { m₀ with used := true }) (aset C i c) K := by
  have hno : ∀ j cj, alookup (aset C i c) j = some cj →
      cj.status = CdpStatus.Marked → cj.markerId ≠ k := by
    intro j cj hj hst hk
    by_cases hji : j = i
    · subst hji
      rw [alookup_aset_self] at hj
      cases hj
      exact hcs hst
    · rw [alookup_aset_ne _ _ _ _ hji] at hj
      obtain ⟨m, hm, hmT, hmU, hId⟩ := h.2 j cj hj hst
      rw [hk, hm0] at hm
      cases hm
      exact hji (hId.symm.trans hIdEq)
  exact invOn_set_marker_used (invOn_set_cdp_notMarked h hcs) hm0 hT hno

theorem invOn_erase_marker {M : List (NFId × CdpMarker)}
    {C : List (NFId × Cdp)} {K : ℕ} {k : NFId} {m₀ : CdpMarker}
    (h : MarkerInvOn M C K) (hm0 : alookup M k = some m₀)
    (hu : m₀.used = true) : MarkerInvOn (aerase M k) C K := by
  obtain ⟨h1, h2⟩ := h
  constructor
  · intro j mj hj
    rw [alookup_aerase] at hj
    by_cases hjk : j = k
    · simp [hjk] at hj
    · rw [if_neg hjk] at hj
      exact h1 j mj hj
  · intro i c hc hst
    obtain ⟨m, hm, hmT, hmU, hId⟩ := h2 i c hc hst
    have hne : c.markerId ≠ k := by
      intro he
      rw [he, hm0] at hm
      cases hm
      rw [hu] at hmU
      cases hmU
    exact ⟨m, by rw [alookup_aerase, if_neg hne]; exact hm, hmT, hmU, hId⟩

theorem marked_pointer_back {M : List (NFId × CdpMarker)}
    {C : List (NFId × Cdp)} {K : ℕ} {i : NFId} {c : Cdp}
    (h : MarkerInvOn M C K) (hc : alookup C i = some c)
    (hst : c.status = CdpStatus.Marked) {m : CdpMarker}
    (hm : alookup M c.markerId = some m) : m.markedId = i := by
  obtain ⟨m2, hm2, hT2, hU2, hId2⟩ := h.2 i c hc hst
  rw [hm2] at hm
  cases hm
  exact hId2

theorem markerInv_changeCollateralPrice {s : StabState} {c : Addr} {p : ℚ}
    {t : StabState} (h : changeCollateralPrice s c p = .ok t)
    (hinv : MarkerInv s) : MarkerInv t := by
  rw [changeCollateralPrice] at h
  simp only [bind_eq_ok, need_eq_ok, Except.ok.injEq] at h
  obtain ⟨info, hinfo, ht⟩ := h
  subst ht
  exact hinv

theorem markerInv_addCollateral {s : StabState} {a : Addr} {mcr p : ℚ}
    {t : StabState} (h : addCollateral s a mcr p = .ok t)
    (hinv : MarkerInv s) : MarkerInv t := by
  rw [addCollateral] at h
  simp only [bind_eq_ok, guardE_eq_ok, exists_const, Except.ok.injEq] at h
  obtain ⟨hg, ht⟩ := h
  subst ht
  exact hinv

theorem markerInv_addPoolCollateral {s : StabState} {a pa : Addr}
    {lsu acc : Bool} {t : StabState}
    (h : addPoolCollateral s a pa lsu acc = .ok t)
    (hinv : MarkerInv s) : MarkerInv t := by
  rw [addPoolCollateral] at h
  simp only [bind_eq_ok, guardE_eq_ok, exists_const, Except.ok.injEq] at h
  obtain ⟨hg, ht⟩ := h
  subst ht
  exact hinv

theorem markerInv_changeInternalPrice {s : StabState} {p : ℚ}
    (hinv : MarkerInv s) : MarkerInv (changeInternalPrice s p) :=
  hinv

theorem markerInv_burnMarker {s : StabState} {id : NFId} {t : StabState}
    (h : burnMarker s id = .ok t) (hinv : MarkerInv s) : MarkerInv t := by
  rw [burnMarker] at h
  simp only [bind_eq_ok, need_eq_ok, guardE_eq_ok, exists_const,
    Except.ok.injEq] at h
  obtain ⟨data, hdata, hused, ht⟩ := h
  subst ht
  exact invOn_erase_marker hinv hdata hused

theorem markerInv_burnLoanReceipt {s : StabState} {id : NFId}
    {t : StabState} (h : burnLoanReceipt s id = .ok t)
    (hinv : MarkerInv s) : MarkerInv t := by
  rw [burnLoanReceipt] at h
  simp only [bind_eq_ok, need_eq_ok, guardE_eq_ok, exists_const,
    Except.ok.injEq] at h
  obtain ⟨data, hdata, hst, hamt, ht⟩ := h
  subst ht
  exact invOn_erase_cdp hinv

theorem markerInv_closeCdp {s : StabState} {id : NFId} {p : Bucket}
    {t : StabState} {b1 b2 : Bucket}
    (h : closeCdp s id p = .ok (t, b1, b2)) (hinv : MarkerInv s) :
    MarkerInv t := by
  rw [closeCdp] at h
  simp only [bind_eq_ok, need_eq_ok, guardE_eq_ok, exists_const,
    Except.ok.injEq, Prod.mk.injEq, exists_eq_left, exists_eq_left'] at h
  obtain ⟨rd, hrd, hge, hstop, hhealthy, hres, pr, htake, h⟩ := h
  obtain ⟨s1, cb⟩ := pr
  simp only [bind_eq_ok, Except.ok.injEq, Prod.mk.injEq] at h
  obtain ⟨s2, hs2, s3, hs3, s4, hs4, ht, hb1, hb2⟩ := h
  subst ht
  have hf : MFrame s s4 :=
    mframe_trans (mframe_trans (mframe_trans (mframe_takeCollateral htake)
      (mframe_modColl hs2)) (mframe_updateMintedStab hs3))
      (mframe_removeCr hs4)
  exact invOn_set_cdp_notMarked (markerInv_of_mframe hf hinv) (by simp)

theorem markerInv_retrieveLeftoverCollateral {s : StabState} {id : NFId}
    {t : StabState} {b : Bucket}
    (h : retrieveLeftoverCollateral s id = .ok (t, b))
    (hinv : MarkerInv s) : MarkerInv t := by
  rw [retrieveLeftoverCollateral] at h
  simp only [bind_eq_ok, need_eq_ok, guardE_eq_ok, exists_const] at h
  obtain ⟨rd, hrd, hst, hpos, hstop, htake⟩ := h
  apply markerInv_of_mframe (mframe_takeCollateral htake)
  refine invOn_set_cdp_notMarked hinv ?_
  rcases hst with h1 | h1 <;> simp [h1]

theorem markerInv_borrowMore {rate : Addr → ℚ} {s : StabState} {id : NFId}
    {amount : ℚ} {t : StabState} {b : Bucket}
    (h : borrowMore rate s id amount = .ok (t, b)) (hinv : MarkerInv s) :
    MarkerInv t := by
  rw [borrowMore] at h
  simp only [bind_eq_ok, need_eq_ok, guardE_eq_ok, exists_const,
    Except.ok.injEq, Prod.mk.injEq] at h
  obtain ⟨rd, hrd, hhealthy, hstop, s1, hs1, s2, hs2, s3, hs3, info, hinfo,
    hcr, ht, hb⟩ := h
  subst ht
  have hf : MFrame s s3 :=
    mframe_trans (mframe_trans (mframe_removeCr hs1)
      (mframe_updateMintedStab hs2)) (mframe_insertCr hs3)
  exact invOn_set_cdp_same rd (markerInv_of_mframe hf hinv)
    (by rw [hf.2.1]; exact hrd) rfl rfl

theorem markerInv_removeCollateral {rate : Addr → ℚ} {s : StabState}
    {id : NFId} {amount : ℚ} {t : StabState} {b : Bucket}
    (h : removeCollateral rate s id amount = .ok (t, b))
    (hinv : MarkerInv s) : MarkerInv t := by
  rw [removeCollateral] at h
  simp only [bind_eq_ok, need_eq_ok, guardE_eq_ok, exists_const,
    Except.ok.injEq, Prod.mk.injEq, exists_eq_left, exists_eq_left'] at h
  obtain ⟨rd, hrd, hhealthy, hstop, s1, hs1, s2, hs2, s3, hs3, info, hinfo,
    hcr, pr, htake, h⟩ := h
  obtain ⟨s4, rb⟩ := pr
  simp only [Except.ok.injEq, Prod.mk.injEq] at h
  obtain ⟨ht, hb⟩ := h
  subst ht
  have hf : MFrame s s4 :=
    mframe_trans (mframe_trans (mframe_trans (mframe_trans
      (mframe_removeCr hs1) (mframe_modColl hs2)) (mframe_insertCr hs3))
      (mframe_rfl s3)) (mframe_takeCollateral htake)
  exact invOn_set_cdp_same rd (markerInv_of_mframe hf hinv)
    (by rw [hf.2.1]; exact hrd) rfl rfl

theorem markerInv_openCdp {rate : Addr → ℚ} {s : StabState}
    {collateral : Bucket} {stabToMint : ℚ} {t : StabState} {b : Bucket}
    {nid : NFId}
    (h : openCdp rate s collateral stabToMint = .ok (t, b, nid))
    (hinv : MarkerInv s) : MarkerInv t := by
  rw [openCdp] at h
  simp only [bind_eq_ok, need_eq_ok, guardE_eq_ok, exists_const,
    Except.ok.injEq, Option.some.injEq, Prod.mk.injEq, exists_eq_left,
    exists_eq_left'] at h
  obtain ⟨hmin, hstop, h⟩ := h
  cases hpu : alookup s.poolUnits collateral.resource with
  | some pu =>
    simp only [hpu, bind_eq_ok, need_eq_ok, guardE_eq_ok, exists_const,
      Except.ok.injEq, Option.some.injEq, Prod.mk.injEq, exists_eq_left,
      exists_eq_left', eq_self_iff_true, if_true, if_false,
      Bool.false_eq_true] at h
    obtain ⟨hacc, s1, hs1, pInfo, hpInfo, hval, h⟩ := h
    cases hI : pInfo.initialized <;>
      simp only [hI, bind_eq_ok, need_eq_ok, guardE_eq_ok, exists_const,
        Except.ok.injEq, Prod.mk.injEq, exists_eq_left, exists_eq_left',
        eq_self_iff_true, if_true, if_false, Bool.false_eq_true] at h
    · obtain ⟨s3a, hs3a, s3, hs3, s4, hs4, s5, hput, ht, hb, hn⟩ := h
      subst ht
      have hf : MFrame s s4 :=
        mframe_trans2 (mframe_updateMintedStab hs4)
          (mframe_trans2 (mframe_modColl hs3)
            (mframe_trans2 (mframe_modColl hs3a)
              (mframe_trans2 (⟨rfl, rfl, rfl⟩ : MFrame s1 _)
                (mframe_modColl hs1))))
      apply markerInv_of_mframe (mframe_putCollateral hput)
      exact invOn_set_cdp_notMarked (markerInv_of_mframe hf hinv) (by simp)
    · obtain ⟨s3, hs3, s4, hs4, s5, hput, ht, hb, hn⟩ := h
      subst ht
      have hf : MFrame s s4 :=
        mframe_trans2 (mframe_updateMintedStab hs4)
          (mframe_trans2 (mframe_insertCr hs3)
            (mframe_trans2 (⟨rfl, rfl, rfl⟩ : MFrame s1 _)
              (mframe_modColl hs1)))
      apply markerInv_of_mframe (mframe_putCollateral hput)
      exact invOn_set_cdp_notMarked (markerInv_of_mframe hf hinv) (by simp)
  | none =>
    simp only [hpu, bind_eq_ok, need_eq_ok, guardE_eq_ok, exists_const,
      Except.ok.injEq, Option.some.injEq, Prod.mk.injEq, exists_eq_left,
      exists_eq_left', eq_self_iff_true, if_true, if_false,
      Bool.false_eq_true] at h
    obtain ⟨hacc, s1, hs1, pInfo, hpInfo, hval, h⟩ := h
    cases hI : pInfo.initialized <;>
      simp only [hI, bind_eq_ok, need_eq_ok, guardE_eq_ok, exists_const,
        Except.ok.injEq, Prod.mk.injEq, exists_eq_left, exists_eq_left',
        eq_self_iff_true, if_true, if_false, Bool.false_eq_true] at h
    · obtain ⟨s3a, hs3a, s3, hs3, s4, hs4, s5, hput, ht, hb, hn⟩ := h
      subst ht
      have hf : MFrame s s4 :=
        mframe_trans2 (mframe_updateMintedStab hs4)
          (mframe_trans2 (mframe_modColl hs3)
            (mframe_trans2 (mframe_modColl hs3a)
              (mframe_trans2 (⟨rfl, rfl, rfl⟩ : MFrame s1 _)
                (mframe_modColl hs1))))
      apply markerInv_of_mframe (mframe_putCollateral hput)
      exact invOn_set_cdp_notMarked (markerInv_of_mframe hf hinv) (by simp)
    · obtain ⟨s3, hs3, s4, hs4, s5, hput, ht, hb, hn⟩ := h
      subst ht
      have hf : MFrame s s4 :=
        mframe_trans2 (mframe_updateMintedStab hs4)
          (mframe_trans2 (mframe_insertCr hs3)
            (mframe_trans2 (⟨rfl, rfl, rfl⟩ : MFrame s1 _)
              (mframe_modColl hs1)))
      apply markerInv_of_mframe (mframe_putCollateral hput)
      exact invOn_set_cdp_notMarked (markerInv_of_mframe hf hinv) (by simp)

theorem forceMintFind_lookup {cdps : List (NFId × Cdp)} {r : Addr}
    {entries : List (ℚ × List NFId)} {i : NFId} {d : Cdp}
    (h : forceMintFind cdps r entries = some (i, d)) :
    alookup cdps i = some d := by
  rw [forceMintFind] at h
  obtain ⟨id, hmem, hf⟩ := List.exists_of_findSome?_eq_some h
  cases hl : alookup cdps id with
  | none => simp [hl] at hf
  | some d0 =>
    simp only [hl] at hf
    by_cases hc : d0.collateral = r
    · rw [if_pos hc] at hf
      simp only [Option.some.injEq, Prod.mk.injEq] at hf
      obtain ⟨hi, hd⟩ := hf
      subst hi
      subst hd
      exact hl
    · rw [if_neg hc] at hf
      cases hf


theorem markerInv_forceMint {rate : Addr → ℚ} {s : StabState}
    {collateral : Addr} {payment : Bucket} {pct : ℚ} {t : StabState}
    {b : Bucket} {rb : Option Bucket}
    (h : forceMint rate s collateral payment pct = .ok (t, b, rb))
    (hinv : MarkerInv s) : MarkerInv t := by
  rw [forceMint] at h
  simp only [bind_eq_ok, need_eq_ok, guardE_eq_ok, exists_const,
    Except.ok.injEq, Option.some.injEq, Prod.mk.injEq, exists_eq_left,
    exists_eq_left'] at h
  obtain ⟨hstop, tree, htree, info0, hinfo0, pr, hfound, h⟩ := h
  obtain ⟨cid, data⟩ := pr
  have hdata := forceMintFind_lookup hfound
  split at h
  all_goals
    simp only [bind_eq_ok, need_eq_ok, guardE_eq_ok, exists_const,
      Except.ok.injEq, Option.some.injEq, Prod.mk.injEq, exists_eq_left,
      exists_eq_left'] at h
    obtain ⟨s1, hs1, s2, hs2, s3, hs3, s4, hs4, s5, hput, ht, hb, hrb⟩ := h
    subst ht
    apply markerInv_of_mframe (mframe_trans2 (mframe_putCollateral hput)
      (mframe_trans2 (mframe_updateMintedStab hs4) (mframe_insertCr hs3)))
    have hf2 : MFrame s s2 :=
      mframe_trans2 (mframe_modColl hs2) (mframe_removeCr hs1)
    exact invOn_set_cdp_same data (markerInv_of_mframe hf2 hinv)
      (by rw [hf2.2.1]; exact hdata) rfl rfl

theorem markerInv_forceLiquidate {rate : Addr → ℚ} {s : StabState}
    {collateral : Addr} {payment : Bucket} {pct : ℚ} {anm : Bool}
    {t : StabState} {b1 b2 : Bucket}
    (h : forceLiquidate rate s collateral payment pct anm = .ok (t, b1, b2))
    (hinv : MarkerInv s) : MarkerInv t := by
  rw [forceLiquidate] at h
  simp only [bind_eq_ok, need_eq_ok, guardE_eq_ok, pure_eq_ok, ite_eq_ok,
    exists_const, Except.ok.injEq, Option.some.injEq, Prod.mk.injEq,
    exists_eq_left, exists_eq_left'] at h
  obtain ⟨hstop, hres, tree, htree, fe, hfe, cid, hcid, data, hdata,
    s1, hs1, info, hinfo, h⟩ := h
  replace h := h.elim (fun x => x.2.2) (fun x => x.2.2)
  obtain ⟨hok, s2, hs2, pr, htake, h⟩ := h
  obtain ⟨s3, cp⟩ := pr
  dsimp only at h htake
  have hf3 : MFrame s s3 :=
    mframe_trans2 (mframe_takeCollateral htake)
      (mframe_trans2 (mframe_updateMintedStab hs2) (mframe_removeCr hs1))
  rcases h with ⟨hlt, s4, hs4, s5, hs5, ht, hb1, hb2⟩ |
    ⟨hge, s4, hs4, ht, hb1, hb2⟩
  · subst ht
    have hfI := mframe_trans2 (mframe_insertCr hs5) (mframe_modColl hs4)
    obtain ⟨hm5, hc5, hk5⟩ := hfI
    dsimp only at hm5 hc5 hk5
    simp only [MarkerInv]
    rw [hm5, hk5, hc5]
    refine invOn_congr ?_ (fun j => alookup_aset_aset _ _ _ _ j)
    exact invOn_set_cdp_same data (markerInv_of_mframe hf3 hinv)
      (by rw [hf3.2.1]; exact hdata) rfl rfl
  · subst ht
    apply markerInv_of_mframe (mframe_modColl hs4)
    simp only [MarkerInv]
    refine invOn_congr ?_ (fun j => alookup_aset_aset _ _ _ _ j)
    exact invOn_set_cdp_notMarked (markerInv_of_mframe hf3 hinv) (by simp)

theorem markerInv_topUpCdp {rate : Addr → ℚ} {s : StabState} {id : NFId}
    {collateral : Bucket} {t : StabState}
    (h : topUpCdp rate s id collateral = .ok t) (hinv : MarkerInv s) :
    MarkerInv t := by
  rw [topUpCdp] at h
  simp only [bind_eq_ok, need_eq_ok, guardE_eq_ok, pure_eq_ok, ite_eq_ok,
    exists_const, Except.ok.injEq, Option.some.injEq, Prod.mk.injEq,
    exists_eq_left, exists_eq_left'] at h
  obtain ⟨rd, hrd, hstat, hcres, h⟩ := h
  rcases h with ⟨hH, s1, hrem, h⟩ | ⟨hH, h⟩
  · obtain ⟨s2, hs2, pInfo, hpInfo, hcr, s3, hs3, s4, hput, h⟩ := h
    have hf4 : MFrame s s4 :=
      mframe_trans2 (mframe_putCollateral hput)
        (mframe_trans2 (mframe_insertCr hs3)
          (mframe_trans2 (mframe_modColl hs2) (mframe_removeCr hrem)))
    rcases h with ⟨hmarked, md, hmd, ht⟩ | ⟨hnm, ht⟩
    · subst ht
      simp only [MarkerInv]
      rw [hf4.1, hf4.2.1, hf4.2.2]
      refine invOn_congr ?_ (fun j => alookup_aset_aset _ _ _ _ j)
      rw [hf4.1] at hmd
      obtain ⟨m2, hm2, hT2, hU2, hId2⟩ := hinv.2 id rd hrd hmarked
      rw [hmd] at hm2
      cases hm2
      exact invOn_liquidate_update hinv hmd hT2 hId2 (by simp)
    · subst ht
      simp only [MarkerInv]
      rw [hf4.1, hf4.2.1, hf4.2.2]
      exact invOn_set_cdp_same rd hinv hrd rfl rfl
  · obtain ⟨s2, hs2, pInfo, hpInfo, hcr, s3, hs3, s4, hput, h⟩ := h
    have hf4 : MFrame s s4 :=
      mframe_trans2 (mframe_putCollateral hput)
        (mframe_trans2 (mframe_insertCr hs3) (mframe_modColl hs2))
    rcases h with ⟨hmarked, md, hmd, ht⟩ | ⟨hnm, ht⟩
    · subst ht
      simp only [MarkerInv]
      rw [hf4.1, hf4.2.1, hf4.2.2]
      refine invOn_congr ?_ (fun j => alookup_aset_aset _ _ _ _ j)
      rw [hf4.1] at hmd
      obtain ⟨m2, hm2, hT2, hU2, hId2⟩ := hinv.2 id rd hrd hmarked
      rw [hmd] at hm2
      cases hm2
      exact invOn_liquidate_update hinv hmd hT2 hId2 (by simp)
    · subst ht
      simp only [MarkerInv]
      rw [hf4.1, hf4.2.1, hf4.2.2]
      exact invOn_set_cdp_same rd hinv hrd rfl rfl

theorem markerInv_partCloseCdp {rate : Addr → ℚ} {s : StabState}
    {id : NFId} {repayment : Bucket} {t : StabState}
    {ob1 ob2 : Option Bucket}
    (h : partCloseCdp rate s id repayment = .ok (t, ob1, ob2))
    (hinv : MarkerInv s) : MarkerInv t := by
  rw [partCloseCdp] at h
  simp only [bind_eq_ok, need_eq_ok, guardE_eq_ok, pure_eq_ok, ite_eq_ok,
    exists_const, Except.ok.injEq, Option.some.injEq, Prod.mk.injEq,
    exists_eq_left, exists_eq_left'] at h
  obtain ⟨hstop, hres, rd, hrd, h⟩ := h
  rcases h with ⟨hneg, a, hclose, h⟩ | ⟨hpos, hmin, hstat, h⟩
  · obtain ⟨t1, cb, lb⟩ := a
    obtain ⟨ht, hb1, hb2⟩ := h
    subst ht
    exact markerInv_closeCdp hclose hinv
  · rcases h with ⟨hH, s1, hrem, h⟩ | ⟨hH, h⟩
    · obtain ⟨s2, hs2, s3, hs3, pInfo, hpInfo, hcr, h⟩ := h
      have hf3 : MFrame s s3 :=
        mframe_trans2 (mframe_insertCr hs3)
          (mframe_trans2 (mframe_updateMintedStab hs2)
            (mframe_removeCr hrem))
      rcases h with ⟨hmarked, md, hmd, ht, hb1, hb2⟩ | ⟨hnm, ht, hb1, hb2⟩
      · subst ht
        simp only [MarkerInv]
        rw [hf3.1, hf3.2.1, hf3.2.2]
        refine invOn_congr ?_ (fun j => alookup_aset_aset _ _ _ _ j)
        rw [hf3.1] at hmd
        obtain ⟨m2, hm2, hT2, hU2, hId2⟩ := hinv.2 id rd hrd hmarked
        rw [hmd] at hm2
        cases hm2
        exact invOn_liquidate_update hinv hmd hT2 hId2 (by simp)
      · subst ht
        simp only [MarkerInv]
        rw [hf3.1, hf3.2.1, hf3.2.2]
        exact invOn_set_cdp_same rd hinv hrd rfl rfl
    · obtain ⟨s2, hs2, s3, hs3, pInfo, hpInfo, hcr, h⟩ := h
      have hf3 : MFrame s s3 :=
        mframe_trans2 (mframe_insertCr hs3) (mframe_updateMintedStab hs2)
      rcases h with ⟨hmarked, md, hmd, ht, hb1, hb2⟩ | ⟨hnm, ht, hb1, hb2⟩
      · subst ht
        simp only [MarkerInv]
        rw [hf3.1, hf3.2.1, hf3.2.2]
        refine invOn_congr ?_ (fun j => alookup_aset_aset _ _ _ _ j)
        rw [hf3.1] at hmd
        obtain ⟨m2, hm2, hT2, hU2, hId2⟩ := hinv.2 id rd hrd hmarked
        rw [hmd] at hm2
        cases hm2
        exact invOn_liquidate_update hinv hmd hT2 hId2 (by simp)
      · subst ht
        simp only [MarkerInv]
        rw [hf3.1, hf3.2.1, hf3.2.2]
        exact invOn_set_cdp_same rd hinv hrd rfl rfl

theorem markerInv_markForLiquidation {rate : Addr → ℚ} {now : ℤ}
    {s : StabState} {collateral : Addr} {t : StabState} {nid : NFId}
    (h : markForLiquidation rate now s collateral = .ok (t, nid))
    (hinv : MarkerInv s) : MarkerInv t := by
  rw [markForLiquidation] at h
  simp only [bind_eq_ok, need_eq_ok, guardE_eq_ok, pure_eq_ok, ite_eq_ok,
    exists_const, Except.ok.injEq, Option.some.injEq, Prod.mk.injEq,
    exists_eq_left, exists_eq_left'] at h
  obtain ⟨tree, htree, fe, hfe, cid, hcid, info, hinfo, data, hdata,
    hguard, s1, hs1, s2, hrem, tree2, htree2, h⟩ := h
  have h1 := mframe_modColl hs1
  have hR := mframe_removeCr hrem
  obtain ⟨hm2a, hc2a, hk2a⟩ := hR
  dsimp only at hm2a hc2a hk2a
  have hm2 : s2.markers = s.markers := hm2a.trans h1.1
  have hc2 : s2.cdps = s.cdps := hc2a.trans h1.2.1
  have hk2' : s2.cdpMarkerCounter = s.cdpMarkerCounter + 1 := by
    rw [hk2a, h1.2.2]
  rcases h with ⟨hsaved, s3, hins, ht, hn⟩ | ⟨hmk, ht, hn⟩
  · subst ht
    have hfI := mframe_insertCr hins
    obtain ⟨hm3, hc3, hk3⟩ := hfI
    simp only [MarkerInv]
    rw [hm3, hc3, hk3, hm2, hc2, hk2']
    exact invOn_insert_marker (invOn_set_cdp_same data hinv hdata rfl rfl)
      (Nat.lt_succ_self _) (fun _ => rfl)
  · subst ht
    simp only [MarkerInv]
    rw [hm2, hc2, hk2']
    exact invOn_mark hinv (Nat.lt_succ_self _) rfl rfl rfl rfl

theorem markerInv_liquidate {s : StabState} {payment : Bucket}
    {markerData : CdpMarker} {markerId : NFId} {cdpData : Cdp} {cr : ℚ}
    {now : ℤ} {t : StabState} {b1 b2 : Bucket} {rid : NFId}
    (h : liquidate s payment markerData markerId cdpData cr now =
      .ok (t, b1, b2, rid))
    (hinv : MarkerInv s)
    (hm : alookup s.markers markerId = some markerData)
    (hT : markerData.markType = CdpUpdate.Marked) :
    MarkerInv t := by
  rw [liquidate] at h
  simp only [bind_eq_ok, need_eq_ok, guardE_eq_ok, pure_eq_ok, ite_eq_ok,
    exists_const, Except.ok.injEq, Option.some.injEq, Prod.mk.injEq,
    exists_eq_left, exists_eq_left'] at h
  obtain ⟨s1, hs1, s2, hs2, info, hinfo, sm, hsm, cs, hcs, hpay, h⟩ := h
  have hf2 : MFrame s s2 :=
    mframe_trans2 (mframe_modColl hs2) (mframe_updateMintedStab hs1)
  rw [hf2.1] at hsm
  rw [hm] at hsm
  cases hsm
  by_cases hc1 : info.mcr * cr / info.liquidationCollateralRatio >
      1 + s2.parameters.liquidationLiquidationFine +
        s2.parameters.stabilisLiquidationFine
  · rw [if_pos hc1] at h
    by_cases hc2 : s2.parameters.stabilisLiquidationFine > 0
    · rw [if_pos hc2] at h
      simp only [bind_eq_ok, need_eq_ok, exists_const, Except.ok.injEq,
        Option.some.injEq, Prod.mk.injEq, exists_eq_left,
        exists_eq_left'] at h
      obtain ⟨a, hta, a1, hta1, a2, ha2, a3, hput, ht, hb1, hb2, hrid⟩ := h
      obtain ⟨a5, ab⟩ := a
      obtain ⟨a6, ab1⟩ := a1
      dsimp only at hta hta1 ha2 hput ht
      subst ht
      have hfa := mframe_takeCollateral hta
      have hfa1 := mframe_takeCollateral hta1
      obtain ⟨hMa, hCa, hKa⟩ := hfa
      dsimp only at hMa hCa hKa
      have hM : a6.markers = aset s2.markers markerId
          { markerData with used := true } := hfa1.1.trans hMa
      have hC : a6.cdps = aset s2.cdps markerData.markedId
          { cs with status := CdpStatus.Liquidated } := hfa1.2.1.trans hCa
      have hK : a6.cdpMarkerCounter = s2.cdpMarkerCounter :=
        hfa1.2.2.trans hKa
      rw [hC] at ha2
      rw [alookup_aset_self] at ha2
      cases ha2
      apply markerInv_of_mframe (mframe_putCollateralInTreasury hput)
      simp only [MarkerInv]
      rw [hM, hC, hK, hf2.1, hf2.2.1, hf2.2.2]
      refine invOn_congr ?_ (fun j => alookup_aset_aset _ _ _ _ j)
      exact invOn_liquidate_update hinv hm hT rfl (by simp)
    · rw [if_neg hc2] at h
      simp only [bind_eq_ok, need_eq_ok, exists_const, Except.ok.injEq,
        Option.some.injEq, Prod.mk.injEq, exists_eq_left,
        exists_eq_left'] at h
      obtain ⟨a1, hta1, a2, ha2, ht, hb1, hb2, hrid⟩ := h
      obtain ⟨a6, ab1⟩ := a1
      dsimp only at hta1 ha2 ht
      subst ht
      have hfa1 := mframe_takeCollateral hta1
      obtain ⟨hM, hC, hK⟩ := hfa1
      dsimp only at hM hC hK
      rw [hC] at ha2
      rw [alookup_aset_self] at ha2
      cases ha2
      simp only [MarkerInv]
      rw [hM, hC, hK, hf2.1, hf2.2.1, hf2.2.2]
      refine invOn_congr ?_ (fun j => alookup_aset_aset _ _ _ _ j)
      exact invOn_liquidate_update hinv hm hT rfl (by simp)
  · rw [if_neg hc1] at h
    by_cases hc3 : info.mcr * cr / info.liquidationCollateralRatio >
        1 + s2.parameters.liquidationLiquidationFine
    · rw [if_pos hc3] at h
      simp only [bind_eq_ok, need_eq_ok, exists_const, Except.ok.injEq,
        Option.some.injEq, Prod.mk.injEq, exists_eq_left,
        exists_eq_left'] at h
      obtain ⟨a, hta, a1, hta1, a2, ha2, a3, hput, ht, hb1, hb2, hrid⟩ := h
      obtain ⟨a5, ab⟩ := a
      obtain ⟨a6, ab1⟩ := a1
      dsimp only at hta hta1 ha2 hput ht
      subst ht
      have hfa := mframe_takeCollateral hta
      have hfa1 := mframe_takeCollateral hta1
      obtain ⟨hMa, hCa, hKa⟩ := hfa
      dsimp only at hMa hCa hKa
      have hM : a6.markers = aset s2.markers markerId
          { markerData with used := true } := hfa1.1.trans hMa
      have hC : a6.cdps = aset s2.cdps markerData.markedId
          { cs with status := CdpStatus.Liquidated } := hfa1.2.1.trans hCa
      have hK : a6.cdpMarkerCounter = s2.cdpMarkerCounter :=
        hfa1.2.2.trans hKa
      rw [hC] at ha2
      rw [alookup_aset_self] at ha2
      cases ha2
      apply markerInv_of_mframe (mframe_putCollateralInTreasury hput)
      simp only [MarkerInv]
      rw [hM, hC, hK, hf2.1, hf2.2.1, hf2.2.2]
      refine invOn_congr ?_ (fun j => alookup_aset_aset _ _ _ _ j)
      exact invOn_liquidate_update hinv hm hT rfl (by simp)
    · rw [if_neg hc3] at h
      simp only [bind_eq_ok, need_eq_ok, exists_const, Except.ok.injEq,
        Option.some.injEq, Prod.mk.injEq, exists_eq_left,
        exists_eq_left'] at h
      obtain ⟨a1, hta1, a2, ha2, ht, hb1, hb2, hrid⟩ := h
      obtain ⟨a6, ab1⟩ := a1
      dsimp only at hta1 ha2 ht
      subst ht
      have hfa1 := mframe_takeCollateral hta1
      obtain ⟨hM, hC, hK⟩ := hfa1
      dsimp only at hM hC hK
      rw [hC] at ha2
      rw [alookup_aset_self] at ha2
      cases ha2
      simp only [MarkerInv]
      rw [hM, hC, hK, hf2.1, hf2.2.1, hf2.2.2]
      refine invOn_congr ?_ (fun j => alookup_aset_aset _ _ _ _ j)
      exact invOn_liquidate_update hinv hm hT rfl (by simp)

theorem markerInv_save {now : ℤ} {s : StabState} {markerData : CdpMarker}
    {cdpData : Cdp} {cr : ℚ} {t : StabState} {nid : NFId} {cdpId : NFId}
    (h : save now s markerData cdpData cr = .ok (t, nid))
    (hinv : MarkerInv s)
    (hc : alookup s.cdps cdpId = some cdpData)
    (hst : cdpData.status = CdpStatus.Marked)
    (hIdc : markerData.markedId = cdpId) :
    MarkerInv t := by
  rw [save] at h
  simp only [bind_eq_ok, need_eq_ok, guardE_eq_ok, pure_eq_ok, ite_eq_ok,
    exists_const, Except.ok.injEq, Option.some.injEq, Prod.mk.injEq,
    exists_eq_left, exists_eq_left'] at h
  obtain ⟨s1, hs1, cs, hcs, om, hom, s5, hins, ht, hn⟩ := h
  subst ht
  apply markerInv_of_mframe (mframe_insertCr hins)
  have hf1 := mframe_modColl hs1
  obtain ⟨m2, hm2, hT2, hU2, hId2⟩ := hinv.2 cdpId cdpData hc hst
  have hb := (hinv.1 _ _ hm2).2.2
  have hne : cdpData.markerId ≠ s.cdpMarkerCounter + 1 :=
    Nat.ne_of_lt (Nat.lt_succ_of_le hb)
  rw [hf1.1, hf1.2.2] at hom
  have hom2 := hom
  rw [alookup_aset_ne _ _ _ _ hne] at hom2
  rw [hm2] at hom2
  cases hom2
  rw [hIdc] at hom
  simp only [MarkerInv]
  rw [hf1.1, hf1.2.1, hf1.2.2, hIdc]
  have hno : ∀ j c,
      alookup (aset s.cdps cdpId
        { cs with status := CdpStatus.Healthy,
                  collateralStabRatio := cr }) j = some c →
      c.status = CdpStatus.Marked → c.markerId ≠ cdpData.markerId := by
    intro j c hj hstj hk
    by_cases hji : j = cdpId
    · subst hji
      rw [alookup_aset_self] at hj
      cases hj
      simp at hstj
    · rw [alookup_aset_ne _ _ _ _ hji] at hj
      obtain ⟨m3, hm3, _, _, hId3⟩ := hinv.2 j c hj hstj
      rw [hk, hm2] at hm3
      cases hm3
      exact hji (hId3.symm.trans hId2)
  exact invOn_set_marker_used
    (invOn_set_cdp_notMarked
      (invOn_insert_marker hinv (Nat.lt_succ_self _) (fun _ => rfl))
      (by simp))
    hom hT2 hno

theorem markerInv_tryLiquidate {rate : Addr → ℚ} {now : ℤ} {s : StabState}
    {payment : Bucket} {cdpData : Cdp} {markerData : CdpMarker}
    {markerId : NFId} {delay : ℤ} {t : StabState} {oc : LiqOutcome}
    {cdpId : NFId}
    (h : tryLiquidate rate now s payment cdpData markerData markerId delay =
      .ok (t, oc))
    (hinv : MarkerInv s)
    (hm : alookup s.markers markerId = some markerData)
    (hc : alookup s.cdps cdpId = some cdpData)
    (hlink : cdpData.markerId = markerId ∨ markerData.markedId = cdpId) :
    MarkerInv t := by
  rw [tryLiquidate] at h
  simp only [bind_eq_ok, need_eq_ok, guardE_eq_ok, pure_eq_ok, ite_eq_ok,
    exists_const, Except.ok.injEq, Option.some.injEq, Prod.mk.injEq,
    exists_eq_left, exists_eq_left'] at h
  obtain ⟨info, hinfo, hstop, ⟨hU, hT⟩, hpay, htime, hstM, h⟩ := h
  obtain ⟨m2, hm2, hT2, hU2, hId2⟩ := hinv.2 cdpId cdpData hc hstM
  have hIdc : markerData.markedId = cdpId := by
    rcases hlink with hl | hl
    · rw [hl] at hm2
      rw [hm] at hm2
      cases hm2
      exact hId2
    · exact hl
  rcases h with ⟨hlt, q, hliq, ht⟩ | ⟨hge, q, hsave, ht⟩
  · obtain ⟨t1, lb, rb, ridq⟩ := q
    dsimp only at hliq ht
    obtain ⟨ht, hoc⟩ := ht
    subst ht
    exact markerInv_liquidate hliq hinv hm hT
  · obtain ⟨t1, nid⟩ := q
    dsimp only at hsave ht
    obtain ⟨ht, hoc⟩ := ht
    subst ht
    exact markerInv_save hsave hinv hc hstM hIdc

theorem markerInv_liquidatePositionWithMarker {rate : Addr → ℚ} {now : ℤ}
    {s : StabState} {markerId : NFId} {payment : Bucket} {t : StabState}
    {oc : LiqOutcome}
    (h : liquidatePositionWithMarker rate now s markerId payment =
      .ok (t, oc))
    (hinv : MarkerInv s) : MarkerInv t := by
  rw [liquidatePositionWithMarker] at h
  simp only [bind_eq_ok, need_eq_ok, guardE_eq_ok, exists_const] at h
  obtain ⟨hres, md, hmd, cd, hcd, h⟩ := h
  exact markerInv_tryLiquidate h hinv hmd hcd (Or.inr rfl)

theorem markerInv_liquidatePositionWithoutMarker {rate : Addr → ℚ}
    {now : ℤ} {s : StabState} {payment : Bucket} {skip : Option ℤ}
    {cdpId : NFId} {t : StabState} {oc : LiqOutcome}
    (h : liquidatePositionWithoutMarker rate now s payment skip cdpId =
      .ok (t, oc))
    (hinv : MarkerInv s) : MarkerInv t := by
  rw [liquidatePositionWithoutMarker] at h
  simp only [bind_eq_ok, need_eq_ok, guardE_eq_ok, exists_const] at h
  obtain ⟨hres, h⟩ := h
  cases skip with
  | none =>
    simp only [bind_eq_ok, need_eq_ok, Except.ok.injEq, exists_eq_left,
      exists_eq_left'] at h
    obtain ⟨cd, hcd, md, hmd, h⟩ := h
    exact markerInv_tryLiquidate h hinv hmd hcd (Or.inl rfl)
  | some n =>
    cases hg : (if 0 ≤ n then
        (s.markedCdps.filter (fun p => 0 ≤ p.1)).get? n.toNat
      else none) with
    | some e =>
      simp only [hg, bind_eq_ok, need_eq_ok, Except.ok.injEq,
        exists_eq_left, exists_eq_left'] at h
      obtain ⟨cd, hcd, md, hmd, h⟩ := h
      exact markerInv_tryLiquidate h hinv hmd hcd (Or.inl rfl)
    | none =>
      simp only [hg, bind_eq_ok, need_eq_ok, error_ne_ok, ite_eq_ok,
        exists_const, false_and, and_false, or_self] at h

theorem markerInv_execOp {s t : StabState} {op : Op}
    (h : execOp s op = .ok t) (hinv : MarkerInv s) : MarkerInv t := by
  cases op with
  | openCdp rate c m =>
    simp only [execOp, map_eq_ok] at h
    obtain ⟨⟨t1, b, nid⟩, hop, ht⟩ := h
    subst ht
    exact markerInv_openCdp hop hinv
  | closeCdp id p =>
    simp only [execOp, map_eq_ok] at h
    obtain ⟨⟨t1, b1, b2⟩, hop, ht⟩ := h
    subst ht
    exact markerInv_closeCdp hop hinv
  | partCloseCdp rate id p =>
    simp only [execOp, map_eq_ok] at h
    obtain ⟨⟨t1, ob1, ob2⟩, hop, ht⟩ := h
    subst ht
    exact markerInv_partCloseCdp hop hinv
  | borrowMore rate id amount =>
    simp only [execOp, map_eq_ok] at h
    obtain ⟨⟨t1, b⟩, hop, ht⟩ := h
    subst ht
    exact markerInv_borrowMore hop hinv
  | topUpCdp rate id c =>
    simp only [execOp] at h
    exact markerInv_topUpCdp h hinv
  | removeCollateral rate id amount =>
    simp only [execOp, map_eq_ok] at h
    obtain ⟨⟨t1, b⟩, hop, ht⟩ := h
    subst ht
    exact markerInv_removeCollateral hop hinv
  | markForLiquidation rate now c =>
    simp only [execOp, map_eq_ok] at h
    obtain ⟨⟨t1, nid⟩, hop, ht⟩ := h
    subst ht
    exact markerInv_markForLiquidation hop hinv
  | liquidateWithMarker rate now mid p =>
    simp only [execOp, map_eq_ok] at h
    obtain ⟨⟨t1, oc⟩, hop, ht⟩ := h
    subst ht
    exact markerInv_liquidatePositionWithMarker hop hinv
  | liquidateWithoutMarker rate now p skip cid =>
    simp only [execOp, map_eq_ok] at h
    obtain ⟨⟨t1, oc⟩, hop, ht⟩ := h
    subst ht
    exact markerInv_liquidatePositionWithoutMarker hop hinv
  | forceLiquidate rate c p pct anm =>
    simp only [execOp, map_eq_ok] at h
    obtain ⟨⟨t1, b1, b2⟩, hop, ht⟩ := h
    subst ht
    exact markerInv_forceLiquidate hop hinv
  | forceMint rate c p pct =>
    simp only [execOp, map_eq_ok] at h
    obtain ⟨⟨t1, b, rb⟩, hop, ht⟩ := h
    subst ht
    exact markerInv_forceMint hop hinv
  | retrieveLeftoverCollateral id =>
    simp only [execOp, map_eq_ok] at h
    obtain ⟨⟨t1, b⟩, hop, ht⟩ := h
    subst ht
    exact markerInv_retrieveLeftoverCollateral hop hinv
  | burnMarker id =>
    simp only [execOp] at h
    exact markerInv_burnMarker h hinv
  | burnLoanReceipt id =>
    simp only [execOp] at h
    exact markerInv_burnLoanReceipt h hinv
  | changeCollateralPrice c p =>
    simp only [execOp] at h
    exact markerInv_changeCollateralPrice h hinv
  | changeInternalPrice p =>
    simp only [execOp, Except.ok.injEq] at h
    subst h
    exact markerInv_changeInternalPrice hinv
  | addCollateral a mcr p =>
    simp only [execOp] at h
    exact markerInv_addCollateral h hinv
  | addPoolCollateral a pa lsu acc =>
    simp only [execOp] at h
    exact markerInv_addPoolCollateral h hinv

theorem markerInv_applyOp (s : StabState) (op : Op) (hinv : MarkerInv s) :
    MarkerInv (applyOp s op) := by
  rw [applyOp]
  cases he : execOp s op with
  | ok t => exact markerInv_execOp he hinv
  | error e => exact hinv

theorem markerInv_run (s : StabState) (ops : List Op)
    (hinv : MarkerInv s) : MarkerInv (run s ops) := by
  induction ops generalizing s with
  | nil => exact hinv
  | cons op rest ih => exact ih (applyOp s op) (markerInv_applyOp s op hinv)

theorem markerInv_instantiate (a : Addr) : MarkerInv (instantiate a) := by
  constructor
  · intro k m hk
    simp [instantiate, alookup] at hk
  · intro i c hc
    simp [instantiate, alookup] at hc

/-- **C10.** In every state reachable from `instantiate` by any sequence
of engine transactions, every marker receipt whose `mark_type` is
`Saved` has `used = false`, and `burn_marker` on it aborts; hence no
`Saved` marker can ever be burned. -/
theorem c10_saved_markers_unburnable (stabAddress : Addr) (ops : List Op)
    (k : NFId) (m : CdpMarker)
    (hm : alookup (run (instantiate stabAddress) ops).markers k = some m)
    (hSaved : m.markType = CdpUpdate.Saved) :
    m.used = false ∧
      burnMarker (run (instantiate stabAddress) ops) k =
        .error "only used markers can be burned" := by
  have hinv := markerInv_run (instantiate stabAddress) ops
    (markerInv_instantiate stabAddress)
  have hu := (hinv.1 k m hm).1 hSaved
  refine ⟨hu, ?_⟩
  simp [burnMarker, hm, need, hu, guardE, bind, Except.bind]

theorem c10_saved_markers_unburnable_witness :
    alookup (run (instantiate 100) c10Ops).markers 2 = some c10SavedMarker ∧
    c10SavedMarker.markType = CdpUpdate.Saved ∧
    c10SavedMarker.used = false ∧
    burnMarker (run (instantiate 100) c10Ops) 2 =
      .error "only used markers can be burned" := by
  have hlook : alookup (run (instantiate 100) c10Ops).markers 2 =
      some c10SavedMarker := by
    norm_num [c10Ops, c10SavedMarker, run, applyOp, execOp, instantiate,
      addCollateral, openCdp, changeCollateralPrice, markForLiquidation,
      liquidatePositionWithMarker, tryLiquidate, liquidate, save, demoRate,
      guardE, need, alookup, aset, aerase, tset, tget, tremove, tfirst,
      modColl, modPool, poolToReal, insertCr, removeCr, checkShare,
      updateMintedStab, takeCollateral, putCollateral,
      putCollateralInTreasury, bind, Except.bind, Except.map, Except.pure,
      List.filter, List.foldl, List.head?]
  have h := c10_saved_markers_unburnable 100 c10Ops 2 c10SavedMarker
    hlook rfl
  exact ⟨hlook, rfl, h.1, h.2⟩


/-! ## Claim theorems -/

/-- **C1** (code-bug evidence).  Accounting closure fails at
`force_mint`: after `open_cdp(360, 10)` the accounting is closed
(`circulating_stab = 10 = Σ active cdp.minted_stab = Σ
parent.minted_stab`), but `force_mint(payment = 100, pct = 1)` mints 90
STAB and adds it to the CDP's debt while calling `update_minted_stab`
with `add = false`, so afterwards `circulating_stab = -80` while the
active CDPs' total debt is `100`: the invariant
`circulating_stab = Σ cdp.minted_stab` is broken. -/
theorem c1_forceMint_breaks_accounting :
    (run (instantiate 100) (forceMintOps.take 2)).circulatingStab = 10 ∧
    sumActiveCdpMintedStab (run (instantiate 100) (forceMintOps.take 2)) = 10 ∧
    sumParentMintedStab (run (instantiate 100) (forceMintOps.take 2)) = 10 ∧
    (run (instantiate 100) forceMintOps).circulatingStab = -80 ∧
    sumActiveCdpMintedStab (run (instantiate 100) forceMintOps) = 100 ∧
    sumParentMintedStab (run (instantiate 100) forceMintOps) = -80 ∧
    (run (instantiate 100) forceMintOps).circulatingStab ≠
      sumActiveCdpMintedStab (run (instantiate 100) forceMintOps) := by
  norm_num [run, applyOp, execOp, instantiate, addCollateral, openCdp,
    forceMint, demoRate, forceMintOps, guardE, need, alookup, aset, aerase,
    tset, tget, tremove, tfirst, trangeBack, modColl, modPool, poolToReal,
    insertCr, removeCr, checkShare, updateMintedStab, takeCollateral,
    putCollateral, putCollateralInTreasury, forceMintFind, bind, Except.bind,
    Except.map, Except.pure, List.filter, List.foldl, List.filterMap,
    List.flatMap, List.findSome?, List.head?, List.take,
    sumActiveCdpMintedStab, sumParentMintedStab, activeStatus]

/-- **C2** (counterexample).  `change_internal_price(2)` on a state with
one collateral (`mcr = 1.5`, `usd_price = 1`, stored `lcr = 1.5`)
changes only the internal STAB price: the stored
`liquidation_collateral_ratio` remains `1.5`, which differs from
`mcr × internal_stab_price / usd_price = 3`, refuting the claim that
every parent's stored LCR equals that product after every
`change_internal_price`. -/
theorem c2_counterexample :
    (alookup (changeInternalPrice baseState 2).collaterals 1).map
      CollateralInfo.liquidationCollateralRatio = some (3/2) ∧
    (alookup (changeInternalPrice baseState 2).collaterals 1).map
      CollateralInfo.mcr = some (3/2) ∧
    (alookup (changeInternalPrice baseState 2).collaterals 1).map
      CollateralInfo.usdPrice = some 1 ∧
    (changeInternalPrice baseState 2).internalStabPrice = 2 ∧
    ¬((3/2 : ℚ) = (3/2) * 2 / 1) := by
  norm_num [applyOp, execOp, instantiate, addCollateral, changeInternalPrice,
    baseState, guardE, need, alookup, aset, bind, Except.bind, Except.map,
    Except.pure, List.filter]

/-- **C3** (counterexample).  On a healthy CDP with debt 500, a
`partial_close_cdp` payment of exactly 500 does **not** behave as
`close_cdp`: it aborts at the minimum-mint check (the delegation to
`close_cdp` requires the repayment to strictly exceed the debt), while
`close_cdp` itself succeeds on the same payment. -/
theorem c3_counterexample :
    (alookup openState.cdps 1).map Cdp.mintedStab = some 500 ∧
    (alookup openState.cdps 1).map Cdp.status = some .Healthy ∧
    partCloseCdp demoRate openState 1 ⟨100, 500⟩ =
      .error "resulting borrowed STAB needs to be above minimum mint" ∧
    (closeCdp openState 1 ⟨100, 500⟩).isOk = true := by
  norm_num [run, applyOp, execOp, instantiate, addCollateral, openCdp,
    closeCdp, partCloseCdp, demoRate, baseState, openState, guardE, need,
    alookup, aset, aerase, tset, tget, tremove, modColl, modPool, poolToReal,
    insertCr, removeCr, checkShare, updateMintedStab, takeCollateral,
    putCollateral, bind, Except.bind, Except.map, Except.pure, List.filter,
    Except.isOk, Except.toBool]

/-- **C2** (amended).  After `change_collateral_price(c, p)` the target
parent's stored LCR equals `mcr × internal_stab_price / usd_price` (with
`usd_price = p`), other parents are untouched, and no CDP record or
CR-index entry is modified; `change_internal_price` sets only the
internal STAB price and recomputes **no** stored LCR (so LCR coherence
can fail after `change_internal_price` until the next
`change_collateral_price`), and it too modifies no CDP record or
CR-index entry. -/
theorem c2_price_update_effects (s : StabState) (c : Addr) (p : ℚ) :
    (∀ s', changeCollateralPrice s c p = .ok s' →
      s'.cdps = s.cdps ∧ s'.collateralRatios = s.collateralRatios ∧
      s'.internalStabPrice = s.internalStabPrice ∧
      (∀ a, a ≠ c → alookup s'.collaterals a = alookup s.collaterals a) ∧
      ∃ info, alookup s'.collaterals c = some info ∧ info.usdPrice = p ∧
        info.liquidationCollateralRatio =
          info.mcr * s'.internalStabPrice / info.usdPrice) ∧
    ((changeInternalPrice s p).collaterals = s.collaterals ∧
     (changeInternalPrice s p).cdps = s.cdps ∧
     (changeInternalPrice s p).collateralRatios = s.collateralRatios ∧
     (changeInternalPrice s p).internalStabPrice = p) := by
  constructor
  · intro s' h
    cases hinfo : alookup s.collaterals c with
    | none =>
        simp [changeCollateralPrice, need, hinfo, bind, Except.bind] at h
    | some info =>
        simp only [changeCollateralPrice, need, hinfo, bind, Except.bind,
          Except.ok.injEq] at h
        subst h
        refine ⟨rfl, rfl, rfl, ?_, ?_⟩
        · intro a ha
          exact alookup_aset_ne _ _ _ _ ha
        · refine ⟨_, alookup_aset_self _ _ _, rfl, ?_⟩
          show info.mcr * (s.internalStabPrice / p) =
            info.mcr * s.internalStabPrice / p
          rw [mul_div_assoc]
  · exact ⟨rfl, rfl, rfl, rfl⟩

/-- Witness for **C2**: the amended theorem applied to the concrete
base state with new price 2. -/
theorem c2_price_update_effects_witness :
    changeCollateralPrice baseState 1 2 = .ok c2AlteredState ∧
    c2AlteredState.cdps = baseState.cdps ∧
    c2AlteredState.internalStabPrice = baseState.internalStabPrice ∧
    ∃ info, alookup c2AlteredState.collaterals 1 = some info ∧
      info.usdPrice = 2 ∧
      info.liquidationCollateralRatio =
        info.mcr * c2AlteredState.internalStabPrice / info.usdPrice := by
  have heq : changeCollateralPrice baseState 1 2 = .ok c2AlteredState := by
    norm_num [changeCollateralPrice, baseState, applyOp, execOp, instantiate,
      addCollateral, c2AlteredState, need, alookup, aset, bind, Except.bind,
      Except.toOption, Option.getD, guardE, Except.map, List.filter]
  obtain ⟨h1, _h2, h3, _h4, h5⟩ :=
    (c2_price_update_effects baseState 1 2).1 c2AlteredState heq
  exact ⟨heq, h1, h3, h5⟩

/-- **C3** (amended).  For a CDP with debt `d`: a `partial_close_cdp`
payment **strictly greater** than `d` delegates to `close_cdp` (the
whole-debt burn and full collateral return), while a payment of exactly
`d` aborts at the minimum-mint check whenever `minimum_mint > 0`
(the residual debt 0 is below the minimum). -/
theorem c3_partClose_boundary (rate : Addr → ℚ) (s : StabState) (id : NFId)
    (payment : Bucket) (data : Cdp)
    (hstop : s.parameters.stopClosings = false)
    (hres : payment.resource = s.stabAddress)
    (hdata : alookup s.cdps id = some data) :
    (payment.amount > data.mintedStab →
      partCloseCdp rate s id payment =
        (closeCdp s id payment).map (fun r => (r.1, some r.2.1, some r.2.2))) ∧
    (payment.amount = data.mintedStab → 0 < s.parameters.minimumMint →
      partCloseCdp rate s id payment =
        .error "resulting borrowed STAB needs to be above minimum mint") := by
  constructor
  · intro hgt
    have hneg : data.mintedStab - payment.amount < 0 := by linarith
    simp only [partCloseCdp, guardE, hstop, hres, need, hdata, bind,
      Except.bind, Bool.false_eq_true, not_false_eq_true, if_true, if_pos rfl]
    rw [if_pos hneg]
    cases closeCdp s id payment <;> rfl
  · intro heq hmin
    have h0 : ¬(data.mintedStab - payment.amount < 0) := by
      rw [heq]; simp
    have h1 : ¬(data.mintedStab - payment.amount ≥ s.parameters.minimumMint) := by
      rw [heq]; simp; linarith
    simp only [partCloseCdp, guardE, hstop, hres, need, hdata, bind,
      Except.bind, Bool.false_eq_true, not_false_eq_true, if_true, if_pos rfl]
    rw [if_neg h0, if_neg h1]

/-- Witness for **C3**: on the concrete open CDP (debt 500), payment 600
delegates to `close_cdp`, and payment 500 aborts. -/
theorem c3_partClose_boundary_witness :
    partCloseCdp demoRate openState 1 ⟨100, 600⟩ =
      (closeCdp openState 1 ⟨100, 600⟩).map
        (fun r => (r.1, some r.2.1, some r.2.2)) ∧
    partCloseCdp demoRate openState 1 ⟨100, 500⟩ =
      .error "resulting borrowed STAB needs to be above minimum mint" := by
  have hstop : openState.parameters.stopClosings = false := by
    norm_num [openState, baseState, applyOp, execOp, instantiate, addCollateral,
      openCdp, demoRate, guardE, need, alookup, aset, tset, tget, modColl,
      poolToReal, insertCr, removeCr, checkShare, updateMintedStab,
      putCollateral, bind, Except.bind, Except.map, Except.pure, List.filter]
  have hdata : alookup openState.cdps 1 = some demoOpenCdp := by
    norm_num [openState, baseState, applyOp, execOp, instantiate, addCollateral,
      openCdp, demoRate, demoOpenCdp, guardE, need, alookup, aset, tset, tget,
      modColl, poolToReal, insertCr, removeCr, checkShare, updateMintedStab,
      putCollateral, bind, Except.bind, Except.map, Except.pure, List.filter]
  have hres : (Bucket.mk 100 600).resource = openState.stabAddress := by
    norm_num [openState, baseState, applyOp, execOp, instantiate, addCollateral,
      openCdp, demoRate, guardE, need, alookup, aset, tset, tget, modColl,
      poolToReal, insertCr, removeCr, checkShare, updateMintedStab,
      putCollateral, bind, Except.bind, Except.map, Except.pure, List.filter]
  have hres5 : (Bucket.mk 100 500).resource = openState.stabAddress := hres
  have hmin : 0 < openState.parameters.minimumMint := by
    norm_num [openState, baseState, applyOp, execOp, instantiate, addCollateral,
      openCdp, demoRate, guardE, need, alookup, aset, tset, tget, modColl,
      poolToReal, insertCr, removeCr, checkShare, updateMintedStab,
      putCollateral, bind, Except.bind, Except.map, Except.pure, List.filter]
  constructor
  · exact (c3_partClose_boundary demoRate openState 1 ⟨100, 600⟩ demoOpenCdp
      hstop hres hdata).1 (by norm_num [demoOpenCdp])
  · exact (c3_partClose_boundary demoRate openState 1 ⟨100, 500⟩ demoOpenCdp
      hstop hres5 hdata).2 (by norm_num [demoOpenCdp]) hmin

/-- **C9** (counterexample).  One oracle entry for a known collateral
with timestamp delta 10 s and `reward_per_second = 0.02` gives a reward
of `0.2`; with the reward vault holding exactly `0.2` — sufficient to
cover the reward — the call pays **no** reward (the code pays only when
the vault balance strictly exceeds the reward), refuting the claim that
the caller is paid exactly the reward whenever the vault suffices. -/
theorem c9_counterexample :
    updateCollateralPrices 0 [(1, 5, 10)] [(1, 0)] 1 (1/5) (1/50) =
      ([(1, 10)], 1, 1/5, none) ∧
    (10 : ℚ) * (1/50) = 1/5 ∧ ¬((1/5 : ℚ) < 1/5) := by
  norm_num [updateCollateralPrices, collectPriceUpdates, alookup, aset,
    List.filter]

/-- **C9** (amended).  The caller of `update` is paid exactly
`reward_per_second × Σ timestamp-deltas` (over the known collaterals;
unknown oracle entries are skipped) when the reward vault balance
**strictly exceeds** that reward, and is paid nothing (`none`, not an
abort) when the vault balance is less than **or equal to** the
reward. -/
theorem c9_reward_payment (xrdAddress : Addr) (prices : List (Addr × ℚ × ℕ))
    (accepted : List (Addr × ℕ)) (xrdPrice rewardVault rewardPerSecond : ℚ) :
    let r := collectPriceUpdates xrdAddress prices accepted xrdPrice
    let reward : ℚ := (r.2.2 : ℚ) * rewardPerSecond
    (rewardVault > reward →
      updateCollateralPrices xrdAddress prices accepted xrdPrice rewardVault
        rewardPerSecond = (r.1, r.2.1, rewardVault - reward, some reward)) ∧
    (rewardVault ≤ reward →
      updateCollateralPrices xrdAddress prices accepted xrdPrice rewardVault
        rewardPerSecond = (r.1, r.2.1, rewardVault, none)) := by
  intro r reward
  constructor
  · intro h
    simp only [updateCollateralPrices]
    rw [if_pos h]
  · intro h
    simp only [updateCollateralPrices]
    rw [if_neg (by exact not_lt.mpr h)]

/-- Witness for **C9**: with a vault of 10 and a reward of 0.2, the
caller is paid exactly the reward. -/
theorem c9_reward_payment_witness :
    (10 : ℚ) >
      ((collectPriceUpdates 0 [(1, 5, 10)] [(1, 0)] 1).2.2 : ℚ) * (1/50) ∧
    updateCollateralPrices 0 [(1, 5, 10)] [(1, 0)] 1 10 (1/50) =
      ((collectPriceUpdates 0 [(1, 5, 10)] [(1, 0)] 1).1,
       (collectPriceUpdates 0 [(1, 5, 10)] [(1, 0)] 1).2.1,
       10 - ((collectPriceUpdates 0 [(1, 5, 10)] [(1, 0)] 1).2.2 : ℚ) * (1/50),
       some (((collectPriceUpdates 0 [(1, 5, 10)] [(1, 0)] 1).2.2 : ℚ) * (1/50))) := by
  have h : (10 : ℚ) >
      ((collectPriceUpdates 0 [(1, 5, 10)] [(1, 0)] 1).2.2 : ℚ) * (1/50) := by
    norm_num [collectPriceUpdates, alookup, aset, List.filter]
  exact ⟨h, (c9_reward_payment 0 [(1, 5, 10)] [(1, 0)] 1 10 (1/50)).1 h⟩

/-- **C8** (confirmed).  On an update tick (elapsed minutes at least
`update_delay`): when the absolute (max-clamped) price error exceeds
`allowed_deviation × internal_price`, the interest rate is decremented
by `(kp × err / internalPrice + ki × windowSum / (internalPrice ×
numberOfCachedPrices)) × elapsedMinutes` and clamped into
`[min_interest_rate, max_interest_rate]` (`windowSum` being the updated
sliding-window total); otherwise the rate is unchanged.  In both cases
the internal price is then multiplied by
`interestRate ^ elapsedMinutes` (the possibly-updated rate, via the
`Decimal::pow` primitive). -/
theorem c8_pid_interest_step (pow : ℚ → ℚ → ℚ)
    (params : InterestParameters) (updateDelay : ℤ)
    (numberOfCachedPrices : ℕ) (stabPoolPrice xrdPrice : ℚ) (now : ℤ)
    (d : StabPriceData)
    (h : ¬(((now : ℚ) - (d.lastUpdate : ℚ)) / 60 < (updateDelay : ℚ))) :
    let passedMinutes : ℚ := ((now : ℚ) - (d.lastUpdate : ℚ)) / 60
    let err0 :=
      stabPoolPrice * xrdPrice * params.priceErrorOffset - d.internalPrice
    let err :=
      if err0 > params.maxPriceError then params.maxPriceError else err0
    let toChangeId :=
      if d.lastChangedPrice ≥ numberOfCachedPrices then 1
      else d.lastChangedPrice + 1
    let fullCache :=
      if d.lastChangedPrice ≥ numberOfCachedPrices then true else d.fullCache
    let windowSum :=
      if ¬fullCache then d.latestStabPriceErrorsTotal + err
      else d.latestStabPriceErrorsTotal + err -
        ((alookup d.latestStabPriceErrors toChangeId).getD 0)
    let d' := updateInternalPrice pow params updateDelay numberOfCachedPrices
      stabPoolPrice xrdPrice now d
    (|err| > params.allowedDeviation * d.internalPrice →
      d'.interestRate =
        (let r := d.interestRate -
            (params.kp * (err / d.internalPrice) +
             params.ki * (windowSum /
               (d.internalPrice * (numberOfCachedPrices : ℚ)))) * passedMinutes
         if r > params.maxInterestRate then params.maxInterestRate
         else if r < params.minInterestRate then params.minInterestRate
         else r)) ∧
    (¬(|err| > params.allowedDeviation * d.internalPrice) →
      d'.interestRate = d.interestRate) ∧
    d'.internalPrice = d.internalPrice * pow d'.interestRate passedMinutes ∧
    d'.latestStabPriceErrorsTotal = windowSum := by
  simp only [updateInternalPrice, if_neg h]
  by_cases hfull : d.lastChangedPrice ≥ numberOfCachedPrices
  · simp only [if_pos hfull]
    by_cases hdev :
        |(if stabPoolPrice * xrdPrice * params.priceErrorOffset -
            d.internalPrice > params.maxPriceError then params.maxPriceError
          else stabPoolPrice * xrdPrice * params.priceErrorOffset -
            d.internalPrice)| >
          params.allowedDeviation * d.internalPrice
    · simp [hdev]
    · simp [hdev]
  · simp only [if_neg hfull]
    by_cases hdev :
        |(if stabPoolPrice * xrdPrice * params.priceErrorOffset -
            d.internalPrice > params.maxPriceError then params.maxPriceError
          else stabPoolPrice * xrdPrice * params.priceErrorOffset -
            d.internalPrice)| >
          params.allowedDeviation * d.internalPrice
    · simp [hdev]
    · simp [hdev]

/-- Witness for **C8**: a concrete tick (elapsed 2 minutes, delay 1,
price error 0.5 exceeding the allowed deviation) applying the
theorem. -/
theorem c8_pid_interest_step_witness :
    ¬(((120 : ℤ) : ℚ) - ((0 : ℤ) : ℚ)) / 60 < ((1 : ℤ) : ℚ) ∧
    (updateInternalPrice (fun a b => a * b)
      { kp := 1, ki := 1, maxInterestRate := 2, minInterestRate := 0,
        allowedDeviation := 1/10, maxPriceError := 10, priceErrorOffset := 1 }
      1 2 (3/2) 1 120
      { latestStabPriceErrors := [], latestStabPriceErrorsTotal := 0,
        lastUpdate := 0, lastChangedPrice := 0, internalPrice := 1,
        fullCache := false, interestRate := 1 }).interestRate =
      (if (1 : ℚ) - (1 * ((1/2) / 1) + 1 * ((0 + 1/2) / (1 * 2))) * 2 > 2
       then 2
       else if (1 : ℚ) - (1 * ((1/2) / 1) + 1 * ((0 + 1/2) / (1 * 2))) * 2 < 0
       then 0
       else (1 : ℚ) - (1 * ((1/2) / 1) + 1 * ((0 + 1/2) / (1 * 2))) * 2) := by
  constructor
  · norm_num
  · have happ := c8_pid_interest_step (fun a b => a * b)
      { kp := 1, ki := 1, maxInterestRate := 2, minInterestRate := 0,
        allowedDeviation := 1/10, maxPriceError := 10, priceErrorOffset := 1 }
      1 2 (3/2) 1 120
      { latestStabPriceErrors := [], latestStabPriceErrorsTotal := 0,
        lastUpdate := 0, lastChangedPrice := 0, internalPrice := 1,
        fullCache := false, interestRate := 1 }
      (by norm_num)
    have hdev : |(if (3/2 : ℚ) * 1 * 1 - 1 > 10 then (10 : ℚ)
        else (3/2 : ℚ) * 1 * 1 - 1)| > (1/10 : ℚ) * 1 := by
      rw [if_neg (by norm_num), show (3/2 : ℚ) * 1 * 1 - 1 = 1/2 by norm_num,
        abs_of_pos (by norm_num)]
      norm_num
    have := happ.1 hdev
    rw [this]
    norm_num [alookup]

/-- **C5** (confirmed).  Force-mint bound: on a state whose highest-CR
CDP holds `C` collateral against `d` STAB (raw collateral, `pr = 1`),
`force_mint` computes `minCr = force_mint_cr_multiplier × lcr`,
`k = internal / (pr × price) × percentage_to_supply` and the maximum
addition `a = k × (C·pr − minCr·d) / (minCr − k·pr)`; when the payment
exceeds `a`, exactly `payment − a` is returned and exactly `a / k` STAB
is minted (the CDP's debt growing by `a / k`).  Concretely, after
`open_cdp(360, 10)` with `mcr = 1.5`, prices 1 and multiplier 3,
`force_mint(payment = 100, pct = 1)` mints 90 STAB and returns 10
collateral. -/
theorem c5_forceMint_bound :
    (∀ (rate : Addr → ℚ) (C d mcr usd internal lcr mult pct pay : ℚ),
      0 ≤ C / d →
      pay > fmScenMaxAddition C d usd internal lcr mult pct →
      ∃ s' stabOut ret,
        forceMint rate (fmScenState C d mcr usd internal lcr mult) 1
            ⟨1, pay⟩ pct = .ok (s', stabOut, some ret) ∧
        stabOut.amount = fmScenMaxAddition C d usd internal lcr mult pct /
          fmScenK usd internal pct ∧
        stabOut.resource = 100 ∧
        ret.amount = pay - fmScenMaxAddition C d usd internal lcr mult pct ∧
        ret.resource = 1 ∧
        (alookup s'.cdps 1).map Cdp.mintedStab =
          some (d + fmScenMaxAddition C d usd internal lcr mult pct /
            fmScenK usd internal pct)) ∧
    (forceMint demoRate (run (instantiate 100) (forceMintOps.take 2)) 1
        ⟨1, 100⟩ 1).toOption.map (fun r => (r.2.1, r.2.2)) =
      some (⟨100, 90⟩, some ⟨1, 10⟩) := by
  constructor
  · intro rate C d mcr usd internal lcr mult pct pay hCd hgt
    have hf : 0 ≤ C / d ∧ C / d < C / d + 1 := ⟨hCd, by linarith⟩
    simp only [fmScenMaxAddition, fmScenK] at hgt
    simp at hgt
    simp [forceMint, fmScenState, scenInfo, scenHealthyCdp, scenParameters,
      fmScenK, fmScenMaxAddition, guardE, need, alookup, aset, aerase, tset,
      tget, tremove, tfirst, trangeBack, modColl, modPool, poolToReal,
      insertCr, removeCr, checkShare, updateMintedStab, takeCollateral,
      putCollateral, forceMintFind, bind, Except.bind, Except.map,
      Except.pure, List.filter, List.flatMap, List.findSome?, hf, hgt]
    by_cases hc : C / d <
        (C + internal / usd * pct * (C - mult * lcr * d) /
          (mult * lcr - internal / usd * pct)) /
          (d + internal / usd * pct * (C - mult * lcr * d) /
            (mult * lcr - internal / usd * pct) / (internal / usd * pct))
    · simp only [if_pos hc]
      refine ⟨_, _, _, rfl, ?_, ?_, ?_, ?_, ?_⟩
      all_goals simp [fmScenMaxAddition, fmScenK, alookup]
    · simp only [if_neg hc]
      refine ⟨_, _, _, rfl, ?_, ?_, ?_, ?_, ?_⟩
      all_goals simp [fmScenMaxAddition, fmScenK, alookup]
  · norm_num [run, applyOp, execOp, instantiate, addCollateral, openCdp,
      forceMint, demoRate, forceMintOps, guardE, need, alookup, aset, aerase,
      tset, tget, tremove, tfirst, trangeBack, modColl, modPool, poolToReal,
      insertCr, removeCr, checkShare, updateMintedStab, takeCollateral,
      putCollateral, putCollateralInTreasury, forceMintFind, bind,
      Except.bind, Except.map, Except.pure, Except.toOption, List.filter,
      List.foldl, List.filterMap, List.flatMap, List.findSome?, List.head?,
      List.take]

/-- Witness for **C5**: the parametric force-mint bound at
`C = 360, d = 10, lcr = 1.5, mult = 3, pct = 1, payment = 100`
(maximum addition `a = 90`). -/
theorem c5_forceMint_bound_witness :
    (0 : ℚ) ≤ 360 / 10 ∧
    (100 : ℚ) > fmScenMaxAddition 360 10 1 1 (3/2) 3 1 ∧
    ∃ s' stabOut ret,
      forceMint demoRate (fmScenState 360 10 (3/2) 1 1 (3/2) 3) 1
          ⟨1, 100⟩ 1 = .ok (s', stabOut, some ret) ∧
      stabOut.amount = fmScenMaxAddition 360 10 1 1 (3/2) 3 1 /
        fmScenK 1 1 1 ∧
      stabOut.resource = 100 ∧
      ret.amount = 100 - fmScenMaxAddition 360 10 1 1 (3/2) 3 1 ∧
      ret.resource = 1 ∧
      (alookup s'.cdps 1).map Cdp.mintedStab =
        some (10 + fmScenMaxAddition 360 10 1 1 (3/2) 3 1 /
          fmScenK 1 1 1) := by
  have h1 : (0 : ℚ) ≤ 360 / 10 := by norm_num
  have h2 : (100 : ℚ) > fmScenMaxAddition 360 10 1 1 (3/2) 3 1 := by
    norm_num [fmScenMaxAddition, fmScenK]
  exact ⟨h1, h2,
    c5_forceMint_bound.1 demoRate 360 10 (3/2) 1 1 (3/2) 3 1 100 h1 h2⟩

/-- **C4** (confirmed).  Liquidation payout regimes, on a state holding
one marked CDP with `C` collateral against `d` STAB and fines `α`, `β`,
with `crPct = mcr × cr / lcr`:
1. `crPct > 1 + α + β`: the liquidator receives `(1+α)·C/crPct`, the
   treasury receives `β·C/crPct`, and the remainder stays in the CDP;
2. `1 + α < crPct ≤ 1 + α + β`: the liquidator receives
   `(1+α)·C/crPct` and the treasury receives `C` minus that (nothing
   stays in the CDP);
3. `crPct ≤ 1 + α`: the liquidator receives all of `C` and the receipt
   records `percentage_received = crPct` (owed `1 + α`).
The excess STAB payment is returned in all regimes.  Concretely, for
`open(4500, 2000)` with `mcr = 1.5`, internal price 2, collateral price
1, `α = 0.10`, `β = 0.05` (`crPct = 1.125`), the liquidator receives
4400, the treasury 100, and the residual collateral is 0. -/
theorem c4_liquidation_payout_regimes :
    (∀ (C d mcr usd lcr α β cr pay : ℚ),
      0 < C → 0 ≤ α → 0 < β → d ≤ pay →
      ((mcr * cr / lcr > 1 + α + β →
        ∃ s' liqB remB,
          liquidate (liqScenState C d mcr usd lcr α β) ⟨100, pay⟩ scenMarker 1
            (scenMarkedCdp C d) cr 0 = .ok (s', liqB, remB, 1) ∧
          liqB.amount = (1 + α) * (C / (mcr * cr / lcr)) ∧
          remB.amount = pay - d ∧
          (alookup s'.collaterals 1).map CollateralInfo.treasury =
            some (β * (C / (mcr * cr / lcr))) ∧
          (alookup s'.cdps 1).map Cdp.collateralAmount =
            some (C - (1 + α) * (C / (mcr * cr / lcr)) -
              β * (C / (mcr * cr / lcr))) ∧
          (alookup s'.liquidationReceipts 1).map
            LiquidationReceipt.percentageReceived = some (1 + α)) ∧
      (1 + α < mcr * cr / lcr → mcr * cr / lcr ≤ 1 + α + β →
        ∃ s' liqB remB,
          liquidate (liqScenState C d mcr usd lcr α β) ⟨100, pay⟩ scenMarker 1
            (scenMarkedCdp C d) cr 0 = .ok (s', liqB, remB, 1) ∧
          liqB.amount = (1 + α) * (C / (mcr * cr / lcr)) ∧
          remB.amount = pay - d ∧
          (alookup s'.collaterals 1).map CollateralInfo.treasury =
            some (C - (1 + α) * (C / (mcr * cr / lcr))) ∧
          (alookup s'.cdps 1).map Cdp.collateralAmount = some 0 ∧
          (alookup s'.liquidationReceipts 1).map
            LiquidationReceipt.percentageReceived = some (1 + α)) ∧
      (mcr * cr / lcr ≤ 1 + α →
        ∃ s' liqB remB,
          liquidate (liqScenState C d mcr usd lcr α β) ⟨100, pay⟩ scenMarker 1
            (scenMarkedCdp C d) cr 0 = .ok (s', liqB, remB, 1) ∧
          liqB.amount = C ∧
          remB.amount = pay - d ∧
          (alookup s'.collaterals 1).map CollateralInfo.treasury = some 0 ∧
          (alookup s'.cdps 1).map Cdp.collateralAmount = some 0 ∧
          (alookup s'.liquidationReceipts 1).map
            LiquidationReceipt.percentageReceived = some (mcr * cr / lcr) ∧
          (alookup s'.liquidationReceipts 1).map
            LiquidationReceipt.percentageOwed = some (1 + α)))) ∧
    (liquidatePositionWithMarker demoRate 300 crossoverState 1
        ⟨100, 2000⟩).toOption.map (fun r =>
      ((alookup r.1.collaterals 1).map CollateralInfo.treasury,
       (alookup r.1.cdps 1).map Cdp.collateralAmount,
       match r.2 with
       | .liquidated liqB remB rid => some (liqB.amount, remB.amount, rid)
       | .saved _ _ => none)) =
      some (some 100, some 0, some (4400, 0, 1)) := by
  constructor
  · intro C d mcr usd lcr α β cr pay hC hα hβ hpay
    refine ⟨?_, ?_, ?_⟩
    · intro hreg
      have hcp : (0:ℚ) < mcr * cr / lcr := by linarith
      have hqm : C / (mcr * cr / lcr) * (mcr * cr / lcr) = C :=
        div_mul_cancel₀ C (ne_of_gt hcp)
      have hq0 : (0:ℚ) ≤ C / (mcr * cr / lcr) := div_nonneg hC.le hcp.le
      have htre : β * (C / (mcr * cr / lcr)) ≤ C := by nlinarith
      have hliq : (1 + α) * (C / (mcr * cr / lcr)) ≤
          C - β * (C / (mcr * cr / lcr)) := by nlinarith
      simp [liquidate, liqScenState, scenInfo, scenMarkedCdp, scenMarker,
        scenParameters, guardE, need, alookup, aset, aerase, tset, tget,
        tremove, modColl, modPool, updateMintedStab, checkShare,
        takeCollateral, putCollateral, putCollateralInTreasury, bind,
        Except.bind, Except.map, Except.pure, List.filter, hpay, hreg, hβ,
        htre, hliq]
      refine ⟨_, _, _, ⟨rfl, rfl, rfl⟩, ?_, ?_, ?_, ?_, ?_⟩
      all_goals simp [alookup]
    · intro hr1 hr2
      have hcp : (0:ℚ) < mcr * cr / lcr := by linarith
      have hq0 : (0:ℚ) ≤ C / (mcr * cr / lcr) := div_nonneg hC.le hcp.le
      have hnreg : ¬(mcr * cr / lcr > 1 + α + β) := by linarith
      have htre : C - (1 + α) * (C / (mcr * cr / lcr)) ≤ C := by nlinarith
      have hliq : (1 + α) * (C / (mcr * cr / lcr)) ≤
          C - (C - (1 + α) * (C / (mcr * cr / lcr))) := by linarith
      simp [liquidate, liqScenState, scenInfo, scenMarkedCdp, scenMarker,
        scenParameters, guardE, need, alookup, aset, aerase, tset, tget,
        tremove, modColl, modPool, updateMintedStab, checkShare,
        takeCollateral, putCollateral, putCollateralInTreasury, bind,
        Except.bind, Except.map, Except.pure, List.filter, hpay, hr1, hnreg,
        htre, hliq]
      refine ⟨_, _, _, ⟨rfl, rfl, rfl⟩, ?_, ?_, ?_, ?_, ?_⟩
      all_goals simp [alookup]
    · intro hreg
      have hnr1 : ¬(mcr * cr / lcr > 1 + α + β) := by linarith
      have hnr2 : ¬(mcr * cr / lcr > 1 + α) := by linarith
      simp [liquidate, liqScenState, scenInfo, scenMarkedCdp, scenMarker,
        scenParameters, guardE, need, alookup, aset, aerase, tset, tget,
        tremove, modColl, modPool, updateMintedStab, checkShare,
        takeCollateral, putCollateral, putCollateralInTreasury, bind,
        Except.bind, Except.map, Except.pure, List.filter, hpay, hnr1, hnr2]
      refine ⟨_, _, _, ⟨rfl, rfl, rfl⟩, ?_, ?_, ?_, ?_, ?_, ?_⟩
      all_goals simp [alookup]
  · norm_num [run, applyOp, execOp, instantiate, addCollateral, openCdp,
      changeCollateralPrice, changeInternalPrice, markForLiquidation,
      liquidatePositionWithMarker, tryLiquidate, liquidate, save,
      crossoverState, demoRate, guardE, need, alookup, aset, aerase, tset,
      tget, tremove, tfirst, trangeBack, modColl, modPool, poolToReal,
      insertCr, removeCr, checkShare, updateMintedStab, takeCollateral,
      putCollateral, putCollateralInTreasury, bind, Except.bind, Except.map,
      Except.pure, Except.toOption, List.filter, List.foldl, List.head?]

/-- Witness for **C4**: the regime-2 payout at
`C = 4500, d = 2000, mcr = 1.5, lcr = 3, cr = 2.25, α = 0.1, β = 0.05`
(`crPct = 1.125`): the liquidator receives 4400, the treasury 100, and
nothing stays in the CDP. -/
theorem c4_liquidation_payout_regimes_witness :
    (0 : ℚ) < 4500 ∧ (0 : ℚ) ≤ 1/10 ∧ (0 : ℚ) < 5/100 ∧
    (2000 : ℚ) ≤ 2000 ∧ 1 + 1/10 < (3/2 : ℚ) * (9/4) / 3 ∧
    (3/2 : ℚ) * (9/4) / 3 ≤ 1 + 1/10 + 5/100 ∧
    ∃ s' liqB remB,
      liquidate (liqScenState 4500 2000 (3/2) 1 3 (1/10) (5/100))
        ⟨100, 2000⟩ scenMarker 1 (scenMarkedCdp 4500 2000) (9/4) 0 =
        .ok (s', liqB, remB, 1) ∧
      liqB.amount = (1 + 1/10) * (4500 / ((3/2 : ℚ) * (9/4) / 3)) ∧
      remB.amount = 2000 - 2000 ∧
      (alookup s'.collaterals 1).map CollateralInfo.treasury =
        some (4500 - (1 + 1/10) * (4500 / ((3/2 : ℚ) * (9/4) / 3))) ∧
      (alookup s'.cdps 1).map Cdp.collateralAmount = some 0 ∧
      (alookup s'.liquidationReceipts 1).map
        LiquidationReceipt.percentageReceived = some (1 + 1/10) := by
  refine ⟨by norm_num, by norm_num, by norm_num, by norm_num,
    by norm_num, by norm_num, ?_⟩
  exact ((c4_liquidation_payout_regimes.1 4500 2000 (3/2) 1 3 (1/10) (5/100)
    (9/4) 2000 (by norm_num) (by norm_num) (by norm_num)
    (by norm_num)).2.1 (by norm_num) (by norm_num))

/-- Helper: a successful `try_liquidate` implies every one of its
precondition checks passed. -/
theorem tryLiquidate_ok_conditions (rate : Addr → ℚ) (now : ℤ) (s : StabState)
    (payment : Bucket) (cdpData : Cdp) (markerData : CdpMarker)
    (markerId : NFId) (delay : ℤ) (s' : StabState) (out : LiqOutcome)
    (h : tryLiquidate rate now s payment cdpData markerData markerId delay =
      .ok (s', out)) :
    s.parameters.stopLiquidations = false ∧ markerData.used = false ∧
    markerData.markType = .Marked ∧ payment.amount ≥ cdpData.mintedStab ∧
    now ≥ markerData.timeMarked + 60 * delay ∧ cdpData.status = .Marked := by
  cases hinfo : alookup s.collaterals cdpData.parentAddress with
  | none => simp [tryLiquidate, need, hinfo, bind, Except.bind] at h
  | some info =>
    cases hb : s.parameters.stopLiquidations with
    | true =>
        simp [tryLiquidate, need, hinfo, hb, guardE, bind, Except.bind] at h
    | false =>
      cases hu : markerData.used with
      | true =>
          simp [tryLiquidate, need, hinfo, hb, hu, guardE, bind,
            Except.bind] at h
      | false =>
        cases ht : markerData.markType with
        | Saved =>
            simp [tryLiquidate, need, hinfo, hb, hu, ht, guardE, bind,
              Except.bind] at h
        | Marked =>
          by_cases hp : payment.amount ≥ cdpData.mintedStab
          · by_cases htime : now ≥ markerData.timeMarked + 60 * delay
            · by_cases hst : cdpData.status = CdpStatus.Marked
              · exact ⟨rfl, rfl, rfl, hp, htime, hst⟩
              · simp [tryLiquidate, need, hinfo, hb, hu, ht, hp, htime, hst,
                  guardE, bind, Except.bind] at h
            · simp [tryLiquidate, need, hinfo, hb, hu, ht, hp, htime, guardE,
                bind, Except.bind] at h
          · simp [tryLiquidate, need, hinfo, hb, hu, ht, hp, guardE, bind,
              Except.bind] at h

/-- **C6** (confirmed).  Liquidation delay gating: a successful
liquidation via `liquidate_position_with_marker` requires the payment to
be STAB, liquidations enabled, the marker unused and of type `Marked`,
the payment at least the CDP's debt, the current time at or after
`time_marked + liquidation_delay` minutes, and CDP status `Marked`;
via `liquidate_position_without_marker` the same with delay
`liquidation_delay + unmarked_delay`.  Violating any of these aborts the
call. -/
theorem c6_liquidation_delay_gating (rate : Addr → ℚ) (now : ℤ) (s : StabState) (payment : Bucket) :
    (∀ (markerId : NFId) (markerData : CdpMarker) (cdpData : Cdp)
        (s' : StabState) (out : LiqOutcome),
      alookup s.markers markerId = some markerData →
      alookup s.cdps markerData.markedId = some cdpData →
      liquidatePositionWithMarker rate now s markerId payment = .ok (s', out) →
      payment.resource = s.stabAddress ∧
      s.parameters.stopLiquidations = false ∧ markerData.used = false ∧
      markerData.markType = .Marked ∧ payment.amount ≥ cdpData.mintedStab ∧
      now ≥ markerData.timeMarked + 60 * s.parameters.liquidationDelay ∧
      cdpData.status = .Marked) ∧
    (∀ (cdpId : NFId) (cdpData : Cdp) (markerData : CdpMarker)
        (s' : StabState) (out : LiqOutcome),
      alookup s.cdps cdpId = some cdpData →
      alookup s.markers cdpData.markerId = some markerData →
      liquidatePositionWithoutMarker rate now s payment none cdpId =
        .ok (s', out) →
      payment.resource = s.stabAddress ∧
      s.parameters.stopLiquidations = false ∧ markerData.used = false ∧
      markerData.markType = .Marked ∧ payment.amount ≥ cdpData.mintedStab ∧
      now ≥ markerData.timeMarked +
        60 * (s.parameters.liquidationDelay + s.parameters.unmarkedDelay) ∧
      cdpData.status = .Marked) := by
  constructor
  · intro markerId markerData cdpData s' out hm hc h
    by_cases hres : payment.resource = s.stabAddress
    · have h' : tryLiquidate rate now s payment cdpData markerData markerId
          s.parameters.liquidationDelay = .ok (s', out) := by
        simpa [liquidatePositionWithMarker, guardE, hres, need, hm, hc, bind,
          Except.bind] using h
      obtain ⟨a, b, c, dd, e, f⟩ := tryLiquidate_ok_conditions rate now s
        payment cdpData markerData markerId s.parameters.liquidationDelay
        s' out h'
      exact ⟨hres, a, b, c, dd, e, f⟩
    · simp [liquidatePositionWithMarker, guardE, hres, bind, Except.bind] at h
  · intro cdpId cdpData markerData s' out hc hm h
    by_cases hres : payment.resource = s.stabAddress
    · have h' : tryLiquidate rate now s payment cdpData markerData
          cdpData.markerId
          (s.parameters.liquidationDelay + s.parameters.unmarkedDelay) =
          .ok (s', out) := by
        simpa [liquidatePositionWithoutMarker, guardE, hres, need, hc, hm,
          bind, Except.bind] using h
      obtain ⟨a, b, c, dd, e, f⟩ := tryLiquidate_ok_conditions rate now s
        payment cdpData markerData cdpData.markerId
        (s.parameters.liquidationDelay + s.parameters.unmarkedDelay) s' out h'
      exact ⟨hres, a, b, c, dd, e, f⟩
    · simp [liquidatePositionWithoutMarker, guardE, hres, bind,
        Except.bind] at h


/-- **C7** (confirmed).  Save-on-liquidate: when `try_liquidate` passes
all its precondition checks on a marked CDP whose recomputed CR (`C/d`)
is not below the parent's LCR, the CDP transitions Marked → Healthy with
`collateral_stab_ratio` set to the recomputed CR, it is re-inserted into
the CR index at that CR, the original marker is set `used`, a fresh
`Saved` marker (unused) is issued, and the caller's full STAB payment is
returned with `circulating_stab` unchanged (nothing burned).
Conversely (second conjunct, over arbitrary states), `try_liquidate`
reaches the `liquidate` branch only when the recomputed CR is strictly
below the parent's stored LCR. -/
theorem c7_save_on_liquidate :
    (∀ (rate : Addr → ℚ) (now delay : ℤ) (C d mcr usd lcr α β pay : ℚ),
      d ≤ pay → 60 * delay ≤ now → ¬(C / d < lcr) →
      ∃ s', tryLiquidate rate now (liqScenState C d mcr usd lcr α β)
          ⟨100, pay⟩ (scenMarkedCdp C d) scenMarker 1 delay =
          .ok (s', .saved ⟨100, pay⟩ 2) ∧
        (alookup s'.cdps 1).map Cdp.status = some .Healthy ∧
        (alookup s'.cdps 1).map Cdp.collateralStabRatio = some (C / d) ∧
        (alookup s'.markers 1).map CdpMarker.used = some true ∧
        alookup s'.markers 2 = some
          { markType := .Saved
            timeMarked := now
            markedId := 1
            markerPlacing := 2
            used := false } ∧
        (alookup s'.collateralRatios 1).map (fun t => tget t (C / d)) =
          some (some [1]) ∧
        s'.circulatingStab = d) ∧
    (∀ (rate : Addr → ℚ) (now : ℤ) (s : StabState) (payment : Bucket)
        (cdpData : Cdp) (markerData : CdpMarker) (markerId : NFId)
        (delay : ℤ) (s' : StabState) (lb rb : Bucket) (rid : NFId)
        (info : CollateralInfo),
      alookup s.collaterals cdpData.parentAddress = some info →
      tryLiquidate rate now s payment cdpData markerData markerId delay =
        .ok (s', .liquidated lb rb rid) →
      poolToReal rate cdpData.collateralAmount cdpData.collateral
          cdpData.isPoolUnitCollateral / cdpData.mintedStab <
        info.liquidationCollateralRatio) := by
  constructor
  · intro rate now delay C d mcr usd lcr α β pay hpay hnow hncr
    simp [tryLiquidate, save, liqScenState, scenInfo, scenMarkedCdp,
      scenMarker, scenParameters, guardE, need, alookup, aset, aerase, tset,
      tget, tremove, modColl, modPool, poolToReal, insertCr, removeCr, bind,
      Except.bind, Except.map, Except.pure, List.filter, hpay, hnow, hncr]
    by_cases hc0 : 0 < C / d
    · simp only [if_pos hc0]
      refine ⟨_, rfl, ?_, ?_, ?_, ?_, ?_, rfl⟩
      all_goals norm_num [alookup, tget]
    · simp only [if_neg hc0]
      refine ⟨_, rfl, ?_, ?_, ?_, ?_, ?_, rfl⟩
      all_goals norm_num [alookup, tget]
  · intro rate now s payment cdpData markerData markerId delay s' lb rb rid
      info hinfo h
    cases hb : s.parameters.stopLiquidations with
    | true => simp [tryLiquidate, need, hinfo, hb, guardE, bind, Except.bind] at h
    | false =>
      cases hu : markerData.used with
      | true => simp [tryLiquidate, need, hinfo, hb, hu, guardE, bind, Except.bind] at h
      | false =>
        cases ht : markerData.markType with
        | Saved => simp [tryLiquidate, need, hinfo, hb, hu, ht, guardE, bind, Except.bind] at h
        | Marked =>
          by_cases hp : payment.amount ≥ cdpData.mintedStab
          · by_cases htime : now ≥ markerData.timeMarked + 60 * delay
            · by_cases hst : cdpData.status = CdpStatus.Marked
              · by_cases hcr : poolToReal rate cdpData.collateralAmount
                    cdpData.collateral cdpData.isPoolUnitCollateral /
                    cdpData.mintedStab < info.liquidationCollateralRatio
                · exact hcr
                · exfalso
                  cases hsave : save now s markerData cdpData
                      (poolToReal rate cdpData.collateralAmount
                        cdpData.collateral cdpData.isPoolUnitCollateral /
                        cdpData.mintedStab) with
                  | error e =>
                      simp [tryLiquidate, need, hinfo, hb, hu, ht, hp, htime,
                        hst, hcr, hsave, guardE, bind, Except.bind] at h
                  | ok r =>
                      simp [tryLiquidate, need, hinfo, hb, hu, ht, hp, htime,
                        hst, hcr, hsave, guardE, bind, Except.bind] at h
              · simp [tryLiquidate, need, hinfo, hb, hu, ht, hp, htime, hst,
                  guardE, bind, Except.bind] at h
            · simp [tryLiquidate, need, hinfo, hb, hu, ht, hp, htime, guardE,
                bind, Except.bind] at h
          · simp [tryLiquidate, need, hinfo, hb, hu, ht, hp, guardE, bind,
              Except.bind] at h


/-- Witness for **C6**: the concrete marked scenario (marked at time 0,
delay 5 minutes) successfully liquidated with a marker at time 300 s,
with all gating conditions holding. -/
theorem c6_liquidation_delay_gating_witness :
    markedState.parameters.stopLiquidations = false ∧
    demoMarker.used = false ∧ demoMarker.markType = .Marked ∧
    (Bucket.mk 100 600).amount ≥ demoMarkedCdp.mintedStab ∧
    (300 : ℤ) ≥ demoMarker.timeMarked +
      60 * markedState.parameters.liquidationDelay ∧
    demoMarkedCdp.status = .Marked := by
  have hsome : (liquidatePositionWithMarker demoRate 300 markedState 1
      ⟨100, 600⟩).toOption.isSome = true := by
    norm_num [run, applyOp, execOp, instantiate, addCollateral, openCdp,
      changeCollateralPrice, markForLiquidation, liquidatePositionWithMarker,
      tryLiquidate, liquidate, save, markedState, openState, baseState,
      demoRate, guardE, need, alookup, aset, aerase, tset, tget, tremove,
      tfirst, modColl, modPool, poolToReal, insertCr, removeCr, checkShare,
      updateMintedStab, takeCollateral, putCollateral,
      putCollateralInTreasury, bind, Except.bind, Except.map, Except.pure,
      Except.toOption, List.filter, List.foldl, List.head?]
  obtain ⟨r, hr⟩ := Option.isSome_iff_exists.mp hsome
  obtain ⟨s', out⟩ := r
  have h : liquidatePositionWithMarker demoRate 300 markedState 1
      ⟨100, 600⟩ = .ok (s', out) := by
    cases hE : liquidatePositionWithMarker demoRate 300 markedState 1
        ⟨100, 600⟩ with
    | ok v =>
        rw [hE] at hr
        simp only [Except.toOption, Option.some.injEq] at hr
        rw [hr]
    | error e =>
        rw [hE] at hr
        simp [Except.toOption] at hr
  have hm : alookup markedState.markers 1 = some demoMarker := by
    norm_num [run, applyOp, execOp, instantiate, addCollateral, openCdp,
      changeCollateralPrice, markForLiquidation, markedState, openState,
      baseState, demoRate, demoMarker, guardE, need, alookup, aset, aerase,
      tset, tget, tremove, tfirst, modColl, modPool, poolToReal, insertCr,
      removeCr, checkShare, updateMintedStab, takeCollateral, putCollateral,
      bind, Except.bind, Except.map, Except.pure, List.filter, List.foldl,
      List.head?]
  have hc : alookup markedState.cdps demoMarker.markedId =
      some demoMarkedCdp := by
    norm_num [run, applyOp, execOp, instantiate, addCollateral, openCdp,
      changeCollateralPrice, markForLiquidation, markedState, openState,
      baseState, demoRate, demoMarker, demoMarkedCdp, guardE, need, alookup,
      aset, aerase, tset, tget, tremove, tfirst, modColl, modPool, poolToReal,
      insertCr, removeCr, checkShare, updateMintedStab, takeCollateral,
      putCollateral, bind, Except.bind, Except.map, Except.pure, List.filter,
      List.foldl, List.head?]
  obtain ⟨_, a, b, c, dd, e, f⟩ :=
    (c6_liquidation_delay_gating demoRate 300 markedState ⟨100, 600⟩).1
      1 demoMarker demoMarkedCdp s' out hm hc h
  exact ⟨a, b, c, dd, e, f⟩

/-- Witness for **C7**: the parametric save at
`C = 1000, d = 500, lcr = 1.5, payment = 600, delay = 5 min,
now = 300 s` (recomputed CR 2 is at or above the LCR, so the loan is
saved and the payment returned). -/
theorem c7_save_on_liquidate_witness :
    (500 : ℚ) ≤ 600 ∧ (60 : ℤ) * 5 ≤ 300 ∧
    ¬((1000 : ℚ) / 500 < 3/2) ∧
    ∃ s', tryLiquidate demoRate 300
        (liqScenState 1000 500 (3/2) 1 (3/2) (1/10) (5/100)) ⟨100, 600⟩
        (scenMarkedCdp 1000 500) scenMarker 1 5 =
        .ok (s', .saved ⟨100, 600⟩ 2) ∧
      (alookup s'.cdps 1).map Cdp.status = some .Healthy ∧
      (alookup s'.cdps 1).map Cdp.collateralStabRatio =
        some (1000 / 500) ∧
      (alookup s'.markers 1).map CdpMarker.used = some true ∧
      alookup s'.markers 2 = some
        { markType := .Saved
          timeMarked := 300
          markedId := 1
          markerPlacing := 2
          used := false } ∧
      (alookup s'.collateralRatios 1).map (fun t => tget t (1000 / 500)) =
        some (some [1]) ∧
      s'.circulatingStab = 500 := by
  refine ⟨by norm_num, by norm_num, by norm_num, ?_⟩
  exact c7_save_on_liquidate.1 demoRate 300 5 1000 500 (3/2) 1 (3/2)
    (1/10) (5/100) 600 (by norm_num) (by norm_num) (by norm_num)

end StabProtocol
